import Mathlib

/-!
# Verification of the deterministic-replay preprocessing pipeline

Shallow embedding of `research/object_detection/core/preprocessor.py`:
the random-variable cache, the flip / crop / jitter operations and the
`preprocess` field-routing orchestrator, together with theorems about the
determinism, error-handling and index-alignment behaviour of that code.

Floating-point scalars are modelled as rationals extended with a NaN
element (`F`); tensor-library random kernels are modelled as deterministic
functions of an explicit random tape (`RNG`), which is how one run of the
underlying graph behaves.
-/

set_option maxHeartbeats 1000000

namespace Preproc

/-- Scalar model of a float32 value: a rational or NaN. -/
inductive F where
  | nan : F
  | val (q : ℚ) : F
deriving DecidableEq

/-- Model of `tf.is_nan` on a scalar. -/
def F.isNan : F → Bool
  | .nan => true
  | .val _ => false

/-- Addition, NaN-propagating. -/
def F.add : F → F → F
  | .val a, .val b => .val (a + b)
  | _, _ => .nan

/-- Subtraction, NaN-propagating. -/
def F.sub : F → F → F
  | .val a, .val b => .val (a - b)
  | _, _ => .nan

/-- Multiplication, NaN-propagating (0 * NaN is NaN, as in IEEE). -/
def F.mul : F → F → F
  | .val a, .val b => .val (a * b)
  | _, _ => .nan

/-- Division, NaN-propagating; division by zero gives NaN. -/
def F.div : F → F → F
  | .val a, .val b => if b = 0 then .nan else .val (a / b)
  | _, _ => .nan

/-- Model of `tf.greater(x, q)` against a rational constant: false on NaN. -/
def F.gtQ : F → ℚ → Bool
  | .val a, q => decide (q < a)
  | .nan, _ => false

/-- Model of `x >= q`: false on NaN. -/
def F.geQ : F → ℚ → Bool
  | .val a, q => decide (q ≤ a)
  | .nan, _ => false

/-- Model of `tf.clip_by_value(x, 0.0, 1.0)`; NaN propagates. -/
def F.clip01 : F → F
  | .nan => .nan
  | .val q => .val (max 0 (min 1 q))

/-- A value drawn by (and cached from) a random kernel: a uniform scalar,
an integer selector, or a `sample_distorted_bounding_box` window given by
its begin offsets and sizes in pixels. -/
inductive RVal where
  | f (x : F) : RVal
  | n (k : Nat) : RVal
  | crop (by0 bx0 bh bw : Nat) : RVal
deriving DecidableEq

/-- Read a drawn value as a scalar (used when the draw came from
`tf.random_uniform []`). -/
def RVal.toF : RVal → F
  | .f x => x
  | _ => .val 0

/-- Read a drawn value as an integer selector. -/
def RVal.toNat : RVal → Nat
  | .n k => k
  | _ => 0

/-- The random tape: one run of the graph consumes kernel outputs from this
list; an exhausted tape yields a fixed default. -/
structure RNG where
  tape : List RVal
deriving DecidableEq

/-- Consume the next raw kernel output from the tape. -/
def RNG.next : RNG → RVal × RNG
  | ⟨[]⟩ => (.f (.val 0), ⟨[]⟩)
  | ⟨v :: t⟩ => (v, ⟨t⟩)

/-- Cache function identifiers.  Modelled from the spec: the
`core/preprocessor_cache` module itself is not in the sources we were
given; per the spec the cache is keyed by "a fixed enumeration tag
identifying which composite operation the draw belongs to"
(HORIZONTAL_FLIP, VERTICAL_FLIP, CROP_IMAGE, STRICT_CROP_IMAGE,
SELECTOR_TUPLES, ...). -/
inductive FnId where
  | horizontalFlip | verticalFlip | cropImage | strictCropImage
  | selector | selectorTuples
deriving DecidableEq

/-- Cache sub-keys.  Modelled from the spec: the sub-key "distinguishes
multiple draws of the same kind within one call", defaulting to an
empty/neutral key; the strict crop keys its window draw by the
`min_object_covered` value, and the ssd crop selector uses a fixed id. -/
inductive SubKey where
  | empty
  | ssdCropSelectorId
  | minObjCov (q : ℚ)
deriving DecidableEq

/-- The replay cache.  Modelled from the spec: `PreprocessorCache` "maps
(operation_identifier, sub_key) -> previously generated value"; it is
"never mutated except by insertion". -/
structure Cache where
  entries : List ((FnId × SubKey) × RVal)
deriving DecidableEq

/-- Modelled from the spec: cache lookup, `None` when the key is absent. -/
def Cache.get (c : Cache) (fid : FnId) (k : SubKey) : Option RVal :=
  match c.entries.find? (fun e => e.fst = (fid, k)) with
  | some e => some e.snd
  | none => none

/-- Modelled from the spec: insertion of a (first) binding for a key. -/
def Cache.update (c : Cache) (fid : FnId) (k : SubKey) (v : RVal) : Cache :=
  ⟨((fid, k), v) :: c.entries⟩

/-- The empty cache a caller starts from. -/
def Cache.empty : Cache := ⟨[]⟩

/-- Model of `_get_or_create_preprocess_rand_vars` from `preprocessor.py`:
returns the cached tensor for `(function_id, key)` when a non-None cache
holds one, otherwise invokes the generator (consuming the random tape),
storing the result when a cache is present. -/
def get_or_create_preprocess_rand_vars
    (generator_func : RNG → RVal × RNG) (function_id : FnId)
    (preprocess_vars_cache : Option Cache) (key : SubKey) (g : RNG) :
    RVal × Option Cache × RNG :=
  match preprocess_vars_cache with
  | none =>
      let (v, g') := generator_func g
      (v, none, g')
  | some c =>
      match c.get function_id key with
      | some v => (v, some c, g)
      | none =>
          let (v, g') := generator_func g
          (v, some (c.update function_id key v), g')

theorem Cache.get_update_self (c : Cache) (fid : FnId) (k : SubKey) (v : RVal) :
    (c.update fid k v).get fid k = some v := by
  simp [Cache.get, Cache.update, List.find?]

theorem Cache.get_update_other (c : Cache) (fid fid' : FnId) (k k' : SubKey)
    (v : RVal) (h : (fid', k') ≠ (fid, k)) :
    (c.update fid k v).get fid' k' = c.get fid' k' := by
  simp only [Cache.get, Cache.update, List.find?]
  have : ¬(fid = fid' ∧ k = k') := by
    rintro ⟨rfl, rfl⟩; exact h rfl
  rcases Decidable.em (fid = fid') with hf | hf
  · rcases Decidable.em (k = k') with hk | hk
    · exact absurd ⟨hf, hk⟩ this
    · simp [hf, hk]
  · simp [hf]

/-- The flip threshold 0.5 used by the random flips. -/
def half : ℚ := 1 / 2

/-- The canonical output of a `tf.random_uniform []` kernel: a scalar in
[0, 1).  A raw tape value outside that range is mapped into it, modelling
the kernel's output-range guarantee. -/
def canonU01 : RVal → RVal
  | .f (.val q) => if 0 ≤ q ∧ q < 1 then .f (.val q) else .f (.val 0)
  | _ => .f (.val 0)

/-- Generator for `tf.random_uniform []` (a uniform scalar in [0,1)). -/
def uniform01 (g : RNG) : RVal × RNG :=
  let (r, g') := g.next
  (canonU01 r, g')

/-- An image tensor [height, width, channels]. -/
abbrev Image := List (List (List F))

/-- An instance-mask stack [num_instances, height, width]. -/
abbrev Masks := List (List (List F))

/-- Keypoints [num_instances, num_keypoints, 2] as (y, x) pairs. -/
abbrev Keypoints := List (List (F × F))

/-- A box row [ymin, xmin, ymax, xmax]. -/
structure Box where
  ymin : F
  xmin : F
  ymax : F
  xmax : F
deriving DecidableEq

/-- Model of `tf.gather` along axis 0 (indices assumed in range, as in the source). -/
def gather (xs : List α) (idx : List Nat) : List α :=
  idx.filterMap (fun i => xs[i]?)

/-- Python-style ValueError. -/
inductive PError where
  | valueError (msg : String)
deriving DecidableEq

/-- Model of `_flip_boxes_left_right`: `xmin' = 1 - xmax`, `xmax' = 1 - xmin`,
y-coordinates unchanged. -/
def flip_boxes_left_right (boxes : List Box) : List Box :=
  boxes.map (fun b =>
    ⟨b.ymin, F.sub (.val 1) b.xmax, b.ymax, F.sub (.val 1) b.xmin⟩)

/-- Model of `_flip_boxes_up_down`: `ymin' = 1 - ymax`, `ymax' = 1 - ymin`,
x-coordinates unchanged. -/
def flip_boxes_up_down (boxes : List Box) : List Box :=
  boxes.map (fun b =>
    ⟨F.sub (.val 1) b.ymax, b.xmin, F.sub (.val 1) b.ymin, b.xmax⟩)

/-- Model of `tf.image.flip_left_right`: reverse the image along the width axis. -/
def flip_image_left_right (image : Image) : Image :=
  image.map List.reverse

/-- Model of `tf.image.flip_up_down`: reverse the image along the height axis. -/
def flip_image_up_down (image : Image) : Image :=
  image.reverse

/-- Model of `_flip_masks_left_right`: `masks[:, :, ::-1]`. -/
def flip_masks_left_right (masks : Masks) : Masks :=
  masks.map (fun m => m.map List.reverse)

/-- Model of `_flip_masks_up_down`: `masks[:, ::-1, :]`. -/
def flip_masks_up_down (masks : Masks) : Masks :=
  masks.map List.reverse

/-- Modelled from the spec: `keypoint_ops.flip_horizontal` (module not in
the given sources) — keypoint rows are permuted by the caller-supplied
permutation and the x-coordinate is reflected about the flip point 0.5
(`x' = 1 - x`); NaNs pass through. -/
def keypoint_flip_horizontal (keypoints : Keypoints) (perm : List Nat) :
    Keypoints :=
  keypoints.map (fun inst =>
    (gather inst perm).map (fun p => (p.1, F.sub (.val 1) p.2)))

/-- Modelled from the spec: `keypoint_ops.flip_vertical`, symmetric on y. -/
def keypoint_flip_vertical (keypoints : Keypoints) (perm : List Nat) :
    Keypoints :=
  keypoints.map (fun inst =>
    (gather inst perm).map (fun p => (F.sub (.val 1) p.1, p.2)))

/-- Outputs of a flip operation (fields absent when the corresponding
input was absent, mirroring the variable-length result tuple). -/
structure FlipOut where
  image : Image
  boxes : Option (List Box)
  masks : Option Masks
  keypoints : Option Keypoints
deriving DecidableEq

/-- Model of `random_horizontal_flip`: rejects keypoints without a flip
permutation, then draws (or replays) one cached uniform scalar and flips
image, boxes, masks and keypoints together iff the draw exceeds 0.5. -/
def random_horizontal_flip (image : Image) (boxes : Option (List Box))
    (masks : Option Masks) (keypoints : Option Keypoints)
    (keypoint_flip_permutation : Option (List Nat))
    (preprocess_vars_cache : Option Cache) (g : RNG) :
    Except PError FlipOut × Option Cache × RNG :=
  if keypoints.isSome && keypoint_flip_permutation.isNone then
    (.error (.valueError
      "keypoints are provided but keypoints flip permutation is not provided"),
     preprocess_vars_cache, g)
  else
    let r := get_or_create_preprocess_rand_vars uniform01 .horizontalFlip
      preprocess_vars_cache .empty g
    let doFlip := r.1.toF.gtQ half
    let image' := if doFlip then flip_image_left_right image else image
    let boxes' := boxes.map (fun b => if doFlip then flip_boxes_left_right b else b)
    let masks' := masks.map (fun m => if doFlip then flip_masks_left_right m else m)
    let keypoints' :=
      match keypoints, keypoint_flip_permutation with
      | some kp, some perm =>
          some (if doFlip then keypoint_flip_horizontal kp perm else kp)
      | kp, _ => kp
    (.ok ⟨image', boxes', masks', keypoints'⟩, r.2.1, r.2.2)

/-- Model of `random_vertical_flip`: as `random_horizontal_flip` but on the
vertical axis, with its own cache identifier. -/
def random_vertical_flip (image : Image) (boxes : Option (List Box))
    (masks : Option Masks) (keypoints : Option Keypoints)
    (keypoint_flip_permutation : Option (List Nat))
    (preprocess_vars_cache : Option Cache) (g : RNG) :
    Except PError FlipOut × Option Cache × RNG :=
  if keypoints.isSome && keypoint_flip_permutation.isNone then
    (.error (.valueError
      "keypoints are provided but keypoints flip permutation is not provided"),
     preprocess_vars_cache, g)
  else
    let r := get_or_create_preprocess_rand_vars uniform01 .verticalFlip
      preprocess_vars_cache .empty g
    let doFlip := r.1.toF.gtQ half
    let image' := if doFlip then flip_image_up_down image else image
    let boxes' := boxes.map (fun b => if doFlip then flip_boxes_up_down b else b)
    let masks' := masks.map (fun m => if doFlip then flip_masks_up_down m else m)
    let keypoints' :=
      match keypoints, keypoint_flip_permutation with
      | some kp, some perm =>
          some (if doFlip then keypoint_flip_vertical kp perm else kp)
      | kp, _ => kp
    (.ok ⟨image', boxes', masks', keypoints'⟩, r.2.1, r.2.2)

/-- Result record of `retain_boxes_above_threshold` (optional outputs
present iff the corresponding input was supplied). -/
structure RetainOut where
  boxes : List Box
  labels : List Int
  label_weights : List F
  label_confidences : Option (List F)
  multiclass_scores : Option (List (List F))
  masks : Option Masks
  keypoints : Option Keypoints
deriving DecidableEq

/-- Model of `retain_boxes_above_threshold`: computes the indices where
`label_weights > threshold` or the weight is NaN (`tf.where` over
`tf.logical_or`), then gathers boxes, labels, label weights and every
supplied optional array with that one index list. -/
def retain_boxes_above_threshold (boxes : List Box) (labels : List Int)
    (label_weights : List F) (label_confidences : Option (List F))
    (multiclass_scores : Option (List (List F))) (masks : Option Masks)
    (keypoints : Option Keypoints) (threshold : ℚ) : RetainOut :=
  let indices := (List.range label_weights.length).filter
    (fun i => (label_weights.getD i .nan).gtQ threshold
      || (label_weights.getD i .nan).isNan)
  ⟨gather boxes indices, gather labels indices, gather label_weights indices,
   label_confidences.map (fun x => gather x indices),
   multiclass_scores.map (fun x => gather x indices),
   masks.map (fun x => gather x indices),
   keypoints.map (fun x => gather x indices)⟩

theorem F.one_sub_one_sub (v : F) : F.sub (.val 1) (F.sub (.val 1) v) = v := by
  cases v with
  | nan => rfl
  | val q => simp [F.sub]

theorem flip_boxes_left_right_involutive (boxes : List Box) :
    flip_boxes_left_right (flip_boxes_left_right boxes) = boxes := by
  induction boxes with
  | nil => rfl
  | cons b bs ih =>
      simp only [flip_boxes_left_right, List.map_cons, List.map_map] at *
      exact List.cons_eq_cons.mpr
        ⟨by cases b; simp [F.one_sub_one_sub], ih⟩

theorem flip_image_left_right_involutive (image : Image) :
    flip_image_left_right (flip_image_left_right image) = image := by
  simp [flip_image_left_right, List.map_map, Function.comp]

/-- C2: get-or-create contract of the random-variable cache: with no
cache the generator is always invoked afresh on the current tape; with a
cache, a present `(function_id, key)` entry is returned unchanged (cache
and tape untouched), and an absent one is generated, stored and returned,
so that a second access with the same cache and keys returns the first
access's value without invoking any generator. -/
theorem get_or_create_preprocess_rand_vars_contract
    (gen gen₂ : RNG → RVal × RNG) (fid : FnId) (k : SubKey) (c : Cache)
    (g g₂ : RNG) :
    (get_or_create_preprocess_rand_vars gen fid none k g
        = ((gen g).1, none, (gen g).2))
    ∧ (∀ v, c.get fid k = some v →
        get_or_create_preprocess_rand_vars gen fid (some c) k g
          = (v, some c, g))
    ∧ (c.get fid k = none →
        get_or_create_preprocess_rand_vars gen fid (some c) k g
          = ((gen g).1, some (c.update fid k (gen g).1), (gen g).2)
        ∧ get_or_create_preprocess_rand_vars gen₂ fid
            (some (c.update fid k (gen g).1)) k g₂
          = ((gen g).1, some (c.update fid k (gen g).1), g₂)) := by
  refine ⟨rfl, fun v hv => ?_, fun hn => ⟨?_, ?_⟩⟩
  · simp [get_or_create_preprocess_rand_vars, hv]
  · simp [get_or_create_preprocess_rand_vars, hn]
  · simp [get_or_create_preprocess_rand_vars,
      Cache.get_update_self c fid k (gen g).1]

theorem get_or_create_preprocess_rand_vars_contract_witness :
    get_or_create_preprocess_rand_vars (fun g => g.next) .horizontalFlip
        (some (Cache.empty.update .horizontalFlip .empty (.f (.val (1/2)))))
        .empty ⟨[]⟩
      = (.f (.val (1/2)),
         some (Cache.empty.update .horizontalFlip .empty (.f (.val (1/2)))),
         ⟨[]⟩) :=
  (get_or_create_preprocess_rand_vars_contract (fun g => g.next)
      (fun g => g.next) .horizontalFlip .empty
      (Cache.empty.update .horizontalFlip .empty (.f (.val (1/2))))
      ⟨[]⟩ ⟨[]⟩).2.1 (.f (.val (1/2))) rfl

/-- C4: horizontal flip maps each box row [ymin, xmin, ymax, xmax] to
[ymin, 1 - xmax, ymax, 1 - xmin]; the box flip is an involution; and two
successive `random_horizontal_flip` calls whose cached Bernoulli draw is
forced above 0.5 return the original image and boxes exactly. -/
theorem random_horizontal_flip_round_trip (boxes : List Box) (image : Image)
    (c : Cache) (g g₂ : RNG) (v : RVal)
    (hget : c.get .horizontalFlip .empty = some v)
    (hforce : v.toF.gtQ half = true) :
    flip_boxes_left_right boxes
      = boxes.map (fun b =>
          ⟨b.ymin, F.sub (.val 1) b.xmax, b.ymax, F.sub (.val 1) b.xmin⟩)
    ∧ flip_boxes_left_right (flip_boxes_left_right boxes) = boxes
    ∧ random_horizontal_flip image (some boxes) none none none (some c) g
        = (.ok ⟨flip_image_left_right image,
               some (flip_boxes_left_right boxes), none, none⟩, some c, g)
    ∧ random_horizontal_flip (flip_image_left_right image)
        (some (flip_boxes_left_right boxes)) none none none (some c) g₂
        = (.ok ⟨image, some boxes, none, none⟩, some c, g₂) := by
  refine ⟨rfl, flip_boxes_left_right_involutive boxes, ?_, ?_⟩
  · simp [random_horizontal_flip, get_or_create_preprocess_rand_vars,
      hget, hforce]
  · simp [random_horizontal_flip, get_or_create_preprocess_rand_vars,
      hget, hforce, flip_boxes_left_right_involutive,
      flip_image_left_right_involutive]

theorem random_horizontal_flip_round_trip_witness :
    random_horizontal_flip
        (flip_image_left_right [[[F.val 1], [F.val 2]]])
        (some (flip_boxes_left_right
          [⟨F.val (1/4), F.val (1/4), F.val (3/4), F.val (3/4)⟩]))
        none none none
        (some (Cache.empty.update .horizontalFlip .empty (.f (.val (9/10)))))
        ⟨[]⟩
      = (.ok ⟨[[[F.val 1], [F.val 2]]],
             some [⟨F.val (1/4), F.val (1/4), F.val (3/4), F.val (3/4)⟩],
             none, none⟩,
         some (Cache.empty.update .horizontalFlip .empty (.f (.val (9/10)))),
         ⟨[]⟩) :=
  (random_horizontal_flip_round_trip
      [⟨F.val (1/4), F.val (1/4), F.val (3/4), F.val (3/4)⟩]
      [[[F.val 1], [F.val 2]]]
      (Cache.empty.update .horizontalFlip .empty (.f (.val (9/10))))
      ⟨[]⟩ ⟨[]⟩ (.f (.val (9/10))) rfl
      (by norm_num [RVal.toF, F.gtQ, half])).2.2.2

/-- C6: both flips raise a ValueError when keypoints are supplied without
a keypoint flip permutation, returning with the cache and the random tape
untouched — the rejection happens before any draw or cache write. -/
theorem random_flip_keypoints_without_permutation_rejected
    (image : Image) (boxes : Option (List Box)) (masks : Option Masks)
    (kps : Keypoints) (c : Option Cache) (g : RNG) :
    random_horizontal_flip image boxes masks (some kps) none c g
      = (.error (.valueError
          "keypoints are provided but keypoints flip permutation is not provided"),
         c, g)
    ∧ random_vertical_flip image boxes masks (some kps) none c g
      = (.error (.valueError
          "keypoints are provided but keypoints flip permutation is not provided"),
         c, g) := by
  constructor <;> rfl

/-- C7: `retain_boxes_above_threshold` keeps exactly the indices whose
label weight exceeds the threshold or is NaN (in increasing order), and
applies that single index selection to boxes, labels, label weights and
every supplied optional array; on label weights [0.0, 0.5, NaN] with
threshold 0 it drops index 0 and retains indices 1 and 2. -/
theorem retain_boxes_above_threshold_spec (boxes : List Box)
    (labels : List Int) (label_weights : List F) (conf : List F)
    (scores : List (List F)) (masks : Masks) (kps : Keypoints) (t : ℚ) :
    ∃ sel : List Nat,
      (∀ i, i ∈ sel ↔ i < label_weights.length ∧
        ((label_weights.getD i .nan).gtQ t = true ∨
         (label_weights.getD i .nan).isNan = true))
      ∧ sel.Pairwise (· < ·)
      ∧ retain_boxes_above_threshold boxes labels label_weights (some conf)
          (some scores) (some masks) (some kps) t
        = ⟨gather boxes sel, gather labels sel, gather label_weights sel,
           some (gather conf sel), some (gather scores sel),
           some (gather masks sel), some (gather kps sel)⟩
      ∧ retain_boxes_above_threshold boxes labels [F.val 0, F.val (1/2), F.nan]
          (some conf) (some scores) (some masks) (some kps) 0
        = ⟨gather boxes [1, 2], gather labels [1, 2],
           [F.val (1/2), F.nan],
           some (gather conf [1, 2]), some (gather scores [1, 2]),
           some (gather masks [1, 2]), some (gather kps [1, 2])⟩ := by
  refine ⟨(List.range label_weights.length).filter
    (fun i => (label_weights.getD i .nan).gtQ t
      || (label_weights.getD i .nan).isNan), fun i => ?_, ?_, rfl, ?_⟩
  · simp [List.mem_filter, List.mem_range, and_comm]
  · exact List.Pairwise.sublist (List.filter_sublist _) (List.pairwise_lt_range _)
  · simp only [retain_boxes_above_threshold]
    norm_num [F.gtQ, F.isNan, List.range_succ]
    rfl

/-- Model of `x <= q`: false on NaN. -/
def F.leQ : F → ℚ → Bool
  | .val a, q => decide (a ≤ q)
  | .nan, _ => false

/-- Clip all four coordinates of a box to [0, 1]. -/
def Box.clip01 (b : Box) : Box :=
  ⟨b.ymin.clip01, b.xmin.clip01, b.ymax.clip01, b.xmax.clip01⟩

/-- Height (first dimension) of an image tensor. -/
def imageHeight (image : Image) : Nat := image.length

/-- Width (second dimension) of an image tensor. -/
def imageWidth (image : Image) : Nat := (image.headD []).length

/-- Read a drawn value as a crop window (begin y, begin x, height, width)
in pixels; a non-window value falls back to the whole image, which is also
the documented fallback when the constrained sampler finds no valid
window. -/
def RVal.toCrop (h w : Nat) : RVal → Nat × Nat × Nat × Nat
  | .crop a b ch cw => (a, b, ch, cw)
  | _ => (0, 0, h, w)

/-- Canonical output of the `tf.image.sample_distorted_bounding_box`
kernel on an image of the given size: an arbitrary tape value normalised
to a nonempty in-bounds window (the kernel's output guarantee). -/
def canonCropWindow (h w : Nat) : RVal → RVal
  | .crop a b ch cw =>
      let bh := min (max ch 1) h
      let bw := min (max cw 1) w
      .crop (min a (h - bh)) (min b (w - bw)) bh bw
  | _ => .crop 0 0 h w

/-- Generator for the constrained crop-window sampler. -/
def sample_distorted_bounding_box_gen (h w : Nat) (g : RNG) : RVal × RNG :=
  let (r, g') := g.next
  (canonCropWindow h w r, g')

/-- Modelled from the spec: `box_list_ops.prune_completely_outside_window`
predicate (module not in the given sources) — a box is completely outside
the window when it lies fully above, below, left or right of it. -/
def box_completely_outside_window (b : Box) (wy0 wx0 wy1 wx1 : ℚ) : Bool :=
  b.ymin.geQ wy1 || b.ymax.leQ wy0 || b.xmin.geQ wx1 || b.xmax.leQ wx0

/-- Length of the intersection of the interval [lo, hi] with [wlo, whi],
clamped at zero; NaN endpoints propagate. -/
def intersectLen (lo hi : F) (wlo whi : ℚ) : F :=
  match lo, hi with
  | .val a, .val b => .val (max 0 (min b whi - max a wlo))
  | _, _ => .nan

/-- Modelled from the spec: the fraction of a box's area that overlaps the
window (`box_list_ops.prune_non_overlapping_boxes` keeps boxes whose
overlap fraction reaches `overlap_thresh`). -/
def overlap_fraction (b : Box) (wy0 wx0 wy1 wx1 : ℚ) : F :=
  let ih := intersectLen b.ymin b.ymax wy0 wy1
  let iw := intersectLen b.xmin b.xmax wx0 wx1
  F.div (F.mul ih iw)
    (F.mul (F.sub b.ymax b.ymin) (F.sub b.xmax b.xmin))

/-- Modelled from the spec: `box_list_ops.change_coordinate_frame` — remap
a box into the window's normalized coordinate frame. -/
def change_coordinate_frame_box (b : Box) (wy0 wx0 wy1 wx1 : ℚ) : Box :=
  ⟨F.div (F.sub b.ymin (.val wy0)) (.val (wy1 - wy0)),
   F.div (F.sub b.xmin (.val wx0)) (.val (wx1 - wx0)),
   F.div (F.sub b.ymax (.val wy0)) (.val (wy1 - wy0)),
   F.div (F.sub b.xmax (.val wx0)) (.val (wx1 - wx0))⟩

/-- Modelled from the spec: `keypoint_ops.change_coordinate_frame` on one
instance's keypoint list. -/
def change_coordinate_frame_keypoints (inst : List (F × F))
    (wy0 wx0 wy1 wx1 : ℚ) : List (F × F) :=
  inst.map (fun p =>
    (F.div (F.sub p.1 (.val wy0)) (.val (wy1 - wy0)),
     F.div (F.sub p.2 (.val wx0)) (.val (wx1 - wx0))))

/-- Modelled from the spec: `keypoint_ops.prune_outside_window` with the
unit window — keypoints outside [0,1]x[0,1] become NaN (NaN coordinates
fail every comparison and so stay NaN). -/
def prune_keypoints_outside_unit_window (inst : List (F × F)) :
    List (F × F) :=
  inst.map (fun p =>
    if p.1.geQ 0 && p.1.leQ 1 && p.2.geQ 0 && p.2.leQ 1 then p
    else (.nan, .nan))

/-- Model of `tf.slice` of an image to the window [by0, bx0] .. [by0+bh, bx0+bw]. -/
def slice_image (image : Image) (by0 bx0 bh bw : Nat) : Image :=
  ((image.drop by0).take bh).map (fun row => (row.drop bx0).take bw)

/-- Model of `tf.slice` of one instance mask to the same window. -/
def slice_mask (m : List (List F)) (by0 bx0 bh bw : Nat) : List (List F) :=
  ((m.drop by0).take bh).map (fun row => (row.drop bx0).take bw)

/-- The bundle of tensors a crop operation consumes and produces
(optional fields absent exactly when the caller did not supply them). -/
structure CropData where
  image : Image
  boxes : List Box
  labels : List Int
  label_weights : Option (List F)
  label_confidences : Option (List F)
  multiclass_scores : Option (List (List F))
  masks : Option Masks
  keypoints : Option Keypoints
deriving DecidableEq

/-- A default box used only for in-range index lookups. -/
def boxDefault : Box := ⟨.nan, .nan, .nan, .nan⟩

/-- Indices of the boxes not completely outside the window
(`tf.where` over the prune mask). -/
def prune_inside_ids (boxes : List Box) (wy0 wx0 wy1 wx1 : ℚ) : List Nat :=
  (List.range boxes.length).filter (fun i =>
    !(box_completely_outside_window (boxes.getD i boxDefault)
        wy0 wx0 wy1 wx1))

/-- Indices (into the already-pruned list) of the boxes whose overlap
fraction with the window reaches the threshold. -/
def prune_overlap_ids (boxes1 : List Box)
    (overlap_thresh wy0 wx0 wy1 wx1 : ℚ) : List Nat :=
  (List.range boxes1.length).filter (fun i =>
    (overlap_fraction (boxes1.getD i boxDefault) wy0 wx0 wy1 wx1).geQ
      overlap_thresh)

/-- The pure part of the strict crop, applied to a drawn window:
slices the image, prunes boxes in two stages, remaps and optionally clips
the survivors, and applies the identical two-stage index selection to
every present per-instance array. -/
def strict_crop_fields (d : CropData) (overlap_thresh : ℚ)
    (clip_boxes : Bool) (by0 bx0 bh bw : Nat) (wy0 wx0 wy1 wx1 : ℚ) :
    CropData :=
  let new_image := slice_image d.image by0 bx0 bh bw
  let insideIds := prune_inside_ids d.boxes wy0 wx0 wy1 wx1
  let boxes1 := gather d.boxes insideIds
  let keepIds := prune_overlap_ids boxes1 overlap_thresh wy0 wx0 wy1 wx1
  let boxes2 := gather boxes1 keepIds
  let new_boxes0 := boxes2.map
    (fun b => change_coordinate_frame_box b wy0 wx0 wy1 wx1)
  let new_boxes :=
    if clip_boxes then new_boxes0.map Box.clip01 else new_boxes0
  ⟨new_image, new_boxes, gather (gather d.labels insideIds) keepIds,
   d.label_weights.map (fun x => gather (gather x insideIds) keepIds),
   d.label_confidences.map (fun x => gather (gather x insideIds) keepIds),
   d.multiclass_scores.map (fun x => gather (gather x insideIds) keepIds),
   d.masks.map (fun x =>
     (gather (gather x insideIds) keepIds).map
       (fun m => slice_mask m by0 bx0 bh bw)),
   d.keypoints.map (fun x =>
     let k1 := (gather (gather x insideIds) keepIds).map
       (fun inst => change_coordinate_frame_keypoints inst wy0 wx0 wy1 wx1)
     if clip_boxes then k1.map prune_keypoints_outside_unit_window
     else k1)⟩

/-- The pure strict crop for a pixel window on an image of size h x w:
the normalized window coordinates are derived from the pixel window. -/
def strict_crop_apply (d : CropData) (overlap_thresh : ℚ)
    (clip_boxes : Bool) (by0 bx0 bh bw h w : Nat) : CropData :=
  strict_crop_fields d overlap_thresh clip_boxes by0 bx0 bh bw
    ((by0 : ℚ) / (h : ℚ)) ((bx0 : ℚ) / (w : ℚ))
    (((by0 + bh : ℕ) : ℚ) / (h : ℚ)) (((bx0 + bw : ℕ) : ℚ) / (w : ℚ))

/-- Model of `_strict_random_crop_image`: draws (or replays, keyed by
`min_object_covered`) a crop window for the image's actual size and
applies the pure crop to every present field. -/
def strict_random_crop_image (d : CropData) (min_object_covered : ℚ)
    (aspect_ratio_range area_range : ℚ × ℚ) (overlap_thresh : ℚ)
    (clip_boxes : Bool) (cache : Option Cache) (g : RNG) :
    CropData × Option Cache × RNG :=
  let h := imageHeight d.image
  let w := imageWidth d.image
  let r := get_or_create_preprocess_rand_vars
    (sample_distorted_bounding_box_gen h w) .strictCropImage cache
    (.minObjCov min_object_covered) g
  let cw := r.1.toCrop h w
  (strict_crop_apply d overlap_thresh clip_boxes cw.1 cw.2.1 cw.2.2.1
    cw.2.2.2 h w, r.2.1, r.2.2)

/-- Model of `sys.float_info.min` (the smallest positive normal double), the
threshold under which `random_crop_image` takes the draw-free path. -/
def sys_float_info_min : ℚ := 1 / 2 ^ 1022

/-- Model of `random_crop_image`: with `random_coef` below `sys.float_info.min`
runs the strict crop directly (no crop-or-not draw); otherwise draws (or
replays) one uniform scalar, builds the strict-crop branch (the graph
builds — and hence draws and caches — both branches of `tf.cond`), and
returns the strict result when the draw exceeds `random_coef`, the inputs
unchanged otherwise. -/
def random_crop_image (d : CropData) (min_object_covered : ℚ)
    (aspect_ratio_range area_range : ℚ × ℚ) (overlap_thresh : ℚ)
    (clip_boxes : Bool) (random_coef : ℚ) (cache : Option Cache) (g : RNG) :
    CropData × Option Cache × RNG :=
  if random_coef < sys_float_info_min then
    strict_random_crop_image d min_object_covered aspect_ratio_range
      area_range overlap_thresh clip_boxes cache g
  else
    let r := get_or_create_preprocess_rand_vars uniform01 .cropImage cache
      .empty g
    let doCrop := r.1.toF.gtQ random_coef
    let s := strict_random_crop_image d min_object_covered
      aspect_ratio_range area_range overlap_thresh clip_boxes r.2.1 r.2.2
    if doCrop then s else (d, s.2.1, s.2.2)

/-- Generator for `tf.random_uniform [] maxval=num_cases dtype=int32`:
an integer selector in [0, num_cases). -/
def uniformIntGen (num_cases : Nat) (g : RNG) : RVal × RNG :=
  let (r, g') := g.next
  (.n (r.toNat % num_cases), g')

/-- Build every branch of a multi-way selection in case order, threading
the cache and the tape (the graph contains all branches; each branch's
random ops are constructed — and cached — whichever case is selected). -/
def runBranches
    (func : Nat → Option Cache → RNG → CropData × Option Cache × RNG) :
    List Nat → Option Cache → RNG → List CropData × Option Cache × RNG
  | [], c, g => ([], c, g)
  | i :: rest, c, g =>
      let o := func i c g
      let t := runBranches func rest o.2.1 o.2.2
      (o.1 :: t.1, t.2.1, t.2.2)

/-- Model of `_apply_with_random_selector_tuples`: draws (or replays, under the
given key) one integer selector in [0, num_cases), builds all
`num_cases` branches, and keeps only the selected branch's output. -/
def apply_with_random_selector_tuples (x : CropData)
    (func : CropData → Nat → Option Cache → RNG → CropData × Option Cache × RNG)
    (num_cases : Nat) (preprocess_vars_cache : Option Cache) (key : SubKey)
    (g : RNG) : CropData × Option Cache × RNG :=
  let r := get_or_create_preprocess_rand_vars (uniformIntGen num_cases)
    .selectorTuples preprocess_vars_cache key g
  let all := runBranches (fun i c g' => func x i c g')
    (List.range num_cases) r.2.1 r.2.2
  (all.1.getD r.1.toNat x, all.2.1, all.2.2)

/-- The default `min_object_covered` presets of `ssd_random_crop`. -/
def ssd_default_min_object_covered : List ℚ :=
  [0, 1/10, 3/10, 1/2, 7/10, 9/10, 1]

/-- Model of `ssd_random_crop`: selects one of `len(min_object_covered)` preset
parameter tuples through one cached selector draw (key
`SSD_CROP_SELECTOR_ID`) and dispatches to `random_crop_image` with the
selected preset's parameters. -/
def ssd_random_crop (d : CropData) (min_object_covered : List ℚ)
    (aspect_ratio_range area_range : List (ℚ × ℚ))
    (overlap_thresh : List ℚ) (clip_boxes : List Bool)
    (random_coef : List ℚ) (cache : Option Cache) (g : RNG) :
    CropData × Option Cache × RNG :=
  apply_with_random_selector_tuples d
    (fun x index c g' => random_crop_image x
      (min_object_covered.getD index 0)
      (aspect_ratio_range.getD index (0, 0))
      (area_range.getD index (0, 0))
      (overlap_thresh.getD index 0)
      (clip_boxes.getD index true)
      (random_coef.getD index 0) c g')
    min_object_covered.length cache .ssdCropSelectorId g

/-- Canonical output of `tf.random_uniform` over [lo, hi]: a tape value
normalised into that range. -/
def canonUniformRange (lo hi : ℚ) : RVal → F
  | .f (.val q) => if lo ≤ q ∧ q ≤ hi then .val q else .val lo
  | _ => .val lo

/-- The inner `random_jitter_box`: draws four uniform scalars in
[-jitterCoef, jitterCoef], scales them by [height, width, height, width]
of the box, adds them to the corners and clips to [0, 1]. -/
def random_jitter_box (b : Box) (jitterCoef : ℚ) (g : RNG) : Box × RNG :=
  let (r0, g0) := g.next
  let (r1, g1) := g0.next
  let (r2, g2) := g1.next
  let (r3, g3) := g2.next
  let bh := F.sub b.ymax b.ymin
  let bw := F.sub b.xmax b.xmin
  let j := fun (c : F) (coef : F) (r : RVal) =>
    (F.add c (F.mul coef (canonUniformRange (-jitterCoef) jitterCoef r))).clip01
  (⟨j b.ymin bh r0, j b.xmin bw r1, j b.ymax bh r2, j b.xmax bw r3⟩, g3)

/-- Model of `random_jitter_boxes`: jitters each box with fresh draws.  The
function takes no cache parameter — its randomness is never memoised. -/
def random_jitter_boxes (boxes : List Box) (jitterCoef : ℚ) (g : RNG) :
    List Box × RNG :=
  match boxes with
  | [] => ([], g)
  | b :: rest =>
      let o := random_jitter_box b jitterCoef g
      let t := random_jitter_boxes rest jitterCoef o.2
      (o.1 :: t.1, t.2)

theorem get_or_create_preserves_other_key
    (gen : RNG → RVal × RNG) (fid : FnId) (c : Option Cache) (k : SubKey)
    (g : RNG) (fid' : FnId) (k' : SubKey) (h : (fid', k') ≠ (fid, k)) :
    ((get_or_create_preprocess_rand_vars gen fid c k g).2.1).map
        (fun ca => ca.get fid' k')
      = c.map (fun ca => ca.get fid' k') := by
  cases c with
  | none => rfl
  | some ca =>
      simp only [get_or_create_preprocess_rand_vars]
      cases hca : ca.get fid k with
      | some v => rfl
      | none => simp [Cache.get_update_other _ _ _ _ _ _ h]

theorem canonU01_toF_gtQ_one (v : RVal) : (canonU01 v).toF.gtQ 1 = false := by
  cases v with
  | f x =>
      cases x with
      | nan => rfl
      | val q =>
          simp only [canonU01]
          by_cases h : 0 ≤ q ∧ q < 1
          · rw [if_pos h]
            simp only [RVal.toF, F.gtQ, decide_eq_false_iff_not]
            linarith [h.2]
          · rw [if_neg h]
            simp only [RVal.toF, F.gtQ, decide_eq_false_iff_not]
            norm_num
  | n k => simp only [canonU01, RVal.toF, F.gtQ, decide_eq_false_iff_not]; norm_num
  | crop a b c2 d2 =>
      simp only [canonU01, RVal.toF, F.gtQ, decide_eq_false_iff_not]; norm_num

/-- C5 (amended): `random_coef = 0` takes the draw-free strict-crop path
and leaves the crop-or-not cache entry untouched; for `random_coef` at or
above `sys.float_info.min` one uniform draw decides strict crop versus
passthrough; `random_coef = 1` always returns the inputs unchanged. -/
theorem random_crop_image_random_coef_contract (d : CropData) (moc : ℚ)
    (ar area : ℚ × ℚ) (ov : ℚ) (clip : Bool) (c : Option Cache) (g : RNG)
    (rc : ℚ) (hrc : sys_float_info_min ≤ rc)
    (hcached : ∀ ca v, c = some ca → ca.get .cropImage .empty = some v →
        v.toF.gtQ 1 = false) :
    random_crop_image d moc ar area ov clip 0 c g
      = strict_random_crop_image d moc ar area ov clip c g
    ∧ ((random_crop_image d moc ar area ov clip 0 c g).2.1).map
          (fun ca => ca.get .cropImage .empty)
        = c.map (fun ca => ca.get .cropImage .empty)
    ∧ (random_crop_image d moc ar area ov clip rc c g).1
        = (if (get_or_create_preprocess_rand_vars uniform01 .cropImage c
                .empty g).1.toF.gtQ rc = true
           then (strict_random_crop_image d moc ar area ov clip
              (get_or_create_preprocess_rand_vars uniform01 .cropImage c
                .empty g).2.1
              (get_or_create_preprocess_rand_vars uniform01 .cropImage c
                .empty g).2.2).1
           else d)
    ∧ (random_crop_image d moc ar area ov clip 1 c g).1 = d := by
  have h0 : (0 : ℚ) < sys_float_info_min := by
    simp only [sys_float_info_min]; positivity
  have heq : random_crop_image d moc ar area ov clip 0 c g
      = strict_random_crop_image d moc ar area ov clip c g := by
    simp only [random_crop_image]
    rw [if_pos h0]
  refine ⟨heq, ?_, ?_, ?_⟩
  · rw [heq]
    simp only [strict_random_crop_image]
    exact get_or_create_preserves_other_key _ _ _ _ _ _ _ (by simp)
  · simp only [random_crop_image]
    rw [if_neg (by exact not_lt.mpr hrc)]
    cases hdec : (get_or_create_preprocess_rand_vars uniform01 .cropImage c
        .empty g).1.toF.gtQ rc <;> simp [hdec]
  · have h1 : ¬((1 : ℚ) < sys_float_info_min) := by
      simp only [sys_float_info_min, not_lt]
      rw [div_le_one (by positivity)]
      exact one_le_pow₀ (by norm_num)
    simp only [random_crop_image]
    rw [if_neg h1]
    have hfalse : (get_or_create_preprocess_rand_vars uniform01 .cropImage c
        .empty g).1.toF.gtQ 1 = false := by
      cases c with
      | none =>
          simp only [get_or_create_preprocess_rand_vars, uniform01]
          exact canonU01_toF_gtQ_one _
      | some ca =>
          simp only [get_or_create_preprocess_rand_vars]
          cases hca : ca.get .cropImage .empty with
          | some v =>
              simpa using hcached ca v rfl hca
          | none =>
              simp only [uniform01]
              exact canonU01_toF_gtQ_one _
    simp [hfalse]

theorem random_crop_image_random_coef_contract_witness :
    random_crop_image ⟨[[[F.val 1]]], [], [], none, none, none, none, none⟩
        1 (3/4, 4/3) (1/10, 1) (3/10) true 0 none ⟨[]⟩
      = strict_random_crop_image
          ⟨[[[F.val 1]]], [], [], none, none, none, none, none⟩
          1 (3/4, 4/3) (1/10, 1) (3/10) true none ⟨[]⟩
    ∧ ((random_crop_image ⟨[[[F.val 1]]], [], [], none, none, none, none, none⟩
          1 (3/4, 4/3) (1/10, 1) (3/10) true 0 none ⟨[]⟩).2.1).map
          (fun ca => ca.get .cropImage .empty)
        = (none : Option Cache).map (fun ca => ca.get .cropImage .empty)
    ∧ (random_crop_image ⟨[[[F.val 1]]], [], [], none, none, none, none, none⟩
          1 (3/4, 4/3) (1/10, 1) (3/10) true (1/2) none ⟨[]⟩).1
        = (if (get_or_create_preprocess_rand_vars uniform01 .cropImage none
                .empty ⟨[]⟩).1.toF.gtQ (1/2) = true
           then (strict_random_crop_image
              ⟨[[[F.val 1]]], [], [], none, none, none, none, none⟩
              1 (3/4, 4/3) (1/10, 1) (3/10) true
              (get_or_create_preprocess_rand_vars uniform01 .cropImage none
                .empty ⟨[]⟩).2.1
              (get_or_create_preprocess_rand_vars uniform01 .cropImage none
                .empty ⟨[]⟩).2.2).1
           else ⟨[[[F.val 1]]], [], [], none, none, none, none, none⟩)
    ∧ (random_crop_image ⟨[[[F.val 1]]], [], [], none, none, none, none, none⟩
          1 (3/4, 4/3) (1/10, 1) (3/10) true 1 none ⟨[]⟩).1
        = ⟨[[[F.val 1]]], [], [], none, none, none, none, none⟩ :=
  random_crop_image_random_coef_contract
    ⟨[[[F.val 1]]], [], [], none, none, none, none, none⟩
    1 (3/4, 4/3) (1/10, 1) (3/10) true none ⟨[]⟩ (1/2)
    (by simp only [sys_float_info_min]
        rw [div_le_div_iff (by positivity) (by norm_num)]
        norm_num)
    (fun ca v h => nomatch h)

/-- C5, counterexample to the claim as stated: a positive subnormal
`random_coef` strictly below `sys.float_info.min` (here 2^-1023) takes the
draw-free strict-crop path — no uniform draw is compared against
`random_coef`, and no crop-or-not decision value is cached. -/
theorem random_crop_image_positive_coef_counterexample :
    (0 : ℚ) < 1 / 2 ^ 1023
    ∧ random_crop_image ⟨[[[F.val 1]]], [], [], none, none, none, none, none⟩
        1 (3/4, 4/3) (1/10, 1) (3/10) true (1/2^1023)
        (some Cache.empty) ⟨[]⟩
      = strict_random_crop_image
        ⟨[[[F.val 1]]], [], [], none, none, none, none, none⟩
        1 (3/4, 4/3) (1/10, 1) (3/10) true (some Cache.empty) ⟨[]⟩
    ∧ ((random_crop_image ⟨[[[F.val 1]]], [], [], none, none, none, none, none⟩
          1 (3/4, 4/3) (1/10, 1) (3/10) true (1/2^1023)
          (some Cache.empty) ⟨[]⟩).2.1).map
        (fun ca => ca.get .cropImage .empty)
      = some none := by
  have hlt : (1 : ℚ)/2^1023 < sys_float_info_min := by
    simp only [sys_float_info_min]
    rw [div_lt_div_iff (by positivity) (by positivity)]
    rw [one_mul, one_mul]
    exact pow_lt_pow_right₀ (by norm_num) (by norm_num)
  have heq : random_crop_image
      ⟨[[[F.val 1]]], [], [], none, none, none, none, none⟩
      1 (3/4, 4/3) (1/10, 1) (3/10) true (1/2^1023)
      (some Cache.empty) ⟨[]⟩
      = strict_random_crop_image
        ⟨[[[F.val 1]]], [], [], none, none, none, none, none⟩
        1 (3/4, 4/3) (1/10, 1) (3/10) true (some Cache.empty) ⟨[]⟩ := by
    simp only [random_crop_image]
    rw [if_pos hlt]
  refine ⟨by positivity, heq, ?_⟩
  rw [heq]
  rfl

/-- Selector draws lie in [0, num_cases). -/
theorem uniformIntGen_lt (n : Nat) (g : RNG) (hn : 0 < n) :
    (uniformIntGen n g).1.toNat < n := by
  simp only [uniformIntGen, RVal.toNat]
  exact Nat.mod_lt _ hn

/-- C9: `ssd_random_crop` has 7 default presets, draws its selector over
[0, K) with K the preset count, and with the cached selector forced to 0
its output is exactly `random_crop_image` applied to the same inputs and
cache with preset index 0's parameters. -/
theorem ssd_random_crop_selector_zero (d : CropData) (m0 : ℚ)
    (mrest : List ℚ) (ar area : List (ℚ × ℚ)) (ov : List ℚ)
    (cb : List Bool) (rc : List ℚ) (c : Cache) (g : RNG)
    (hsel : c.get .selectorTuples .ssdCropSelectorId = some (.n 0)) :
    ssd_default_min_object_covered.length = 7
    ∧ (∀ n gg, 0 < n → (uniformIntGen n gg).1.toNat < n)
    ∧ (ssd_random_crop d (m0 :: mrest) ar area ov cb rc (some c) g).1
        = (random_crop_image d m0 (ar.getD 0 (0, 0)) (area.getD 0 (0, 0))
            (ov.getD 0 0) (cb.getD 0 true) (rc.getD 0 0) (some c) g).1 := by
  refine ⟨rfl, fun n gg hn => uniformIntGen_lt n gg hn, ?_⟩
  simp only [ssd_random_crop, apply_with_random_selector_tuples,
    get_or_create_preprocess_rand_vars, hsel, List.length_cons]
  rw [List.range_succ_eq_map]
  simp [runBranches, RVal.toNat]

theorem gather_length (xs : List α) (idx : List Nat)
    (h : ∀ i ∈ idx, i < xs.length) : (gather xs idx).length = idx.length := by
  induction idx with
  | nil => rfl
  | cons i rest ih =>
      have hi : i < xs.length := h i (List.mem_cons_self i rest)
      obtain ⟨a, ha⟩ : ∃ a, xs[i]? = some a :=
        ⟨_, List.getElem?_eq_getElem hi⟩
      simp only [gather, List.filterMap_cons, ha, List.length_cons]
      exact congrArg Nat.succ (ih (fun j hj => h j (List.mem_cons_of_mem i hj)))

theorem gather_getElem? (xs : List α) (idx : List Nat)
    (h : ∀ i ∈ idx, i < xs.length) (k : Nat) :
    (gather xs idx)[k]? = idx[k]?.bind (fun i => xs[i]?) := by
  induction idx generalizing k with
  | nil => simp [gather]
  | cons i rest ih =>
      have hi : i < xs.length := h i (List.mem_cons_self i rest)
      obtain ⟨a, ha⟩ : ∃ a, xs[i]? = some a :=
        ⟨_, List.getElem?_eq_getElem hi⟩
      cases k with
      | zero => simp [gather, List.filterMap_cons, ha]
      | succ k =>
          simp only [gather, List.filterMap_cons, ha,
            List.getElem?_cons_succ]
          exact ih (fun j hj => h j (List.mem_cons_of_mem i hj)) k

theorem gather_mem {xs : List α} {idx : List Nat} {a : α}
    (h : a ∈ gather xs idx) : a ∈ xs := by
  simp only [gather, List.mem_filterMap] at h
  obtain ⟨i, _, hi⟩ := h
  exact List.getElem?_mem hi

theorem gather_gather (xs : List α) (I K : List Nat)
    (hI : ∀ i ∈ I, i < xs.length) :
    gather (gather xs I) K = gather xs (gather I K) := by
  induction K with
  | nil => rfl
  | cons k rest ih =>
      cases hk : I[k]? with
      | none =>
          have h0 : (gather xs I)[k]? = none := by
            rw [gather_getElem? xs I hI k, hk]; rfl
          show List.filterMap _ (k :: rest)
            = gather xs (List.filterMap _ (k :: rest))
          rw [List.filterMap_cons, List.filterMap_cons]
          simp only [h0, hk]
          exact ih
      | some i =>
          have hi : i < xs.length := hI i (List.getElem?_mem hk)
          obtain ⟨a, ha⟩ : ∃ a, xs[i]? = some a :=
            ⟨_, List.getElem?_eq_getElem hi⟩
          have h0 : (gather xs I)[k]? = some a := by
            rw [gather_getElem? xs I hI k, hk]; exact ha
          show List.filterMap _ (k :: rest)
            = gather xs (List.filterMap _ (k :: rest))
          rw [List.filterMap_cons, List.filterMap_cons]
          simp only [h0, hk]
          show a :: gather (gather xs I) rest
            = gather xs (i :: gather I rest)
          show a :: gather (gather xs I) rest
            = List.filterMap (fun j => xs[j]?) (i :: gather I rest)
          rw [List.filterMap_cons]
          simp only [ha]
          exact congrArg (a :: .) ih

theorem prune_inside_ids_lt (boxes : List Box) (wy0 wx0 wy1 wx1 : ℚ) :
    ∀ i ∈ prune_inside_ids boxes wy0 wx0 wy1 wx1, i < boxes.length := by
  intro i hi
  simp only [prune_inside_ids, List.mem_filter, List.mem_range] at hi
  exact hi.1

theorem prune_overlap_ids_lt (boxes1 : List Box)
    (ov wy0 wx0 wy1 wx1 : ℚ) :
    ∀ k ∈ prune_overlap_ids boxes1 ov wy0 wx0 wy1 wx1,
      k < boxes1.length := by
  intro k hk
  simp only [prune_overlap_ids, List.mem_filter, List.mem_range] at hk
  exact hk.1

theorem strict_crop_fields_alignment (d : CropData) (ov : ℚ) (clip : Bool)
    (by0 bx0 bh bw : Nat) (wy0 wx0 wy1 wx1 : ℚ)
    (hlab : d.labels.length = d.boxes.length)
    (hlw : ∀ x, d.label_weights = some x → x.length = d.boxes.length)
    (hlc : ∀ x, d.label_confidences = some x → x.length = d.boxes.length)
    (hms : ∀ x, d.multiclass_scores = some x → x.length = d.boxes.length)
    (hmk : ∀ x, d.masks = some x → x.length = d.boxes.length)
    (hkp : ∀ x, d.keypoints = some x → x.length = d.boxes.length) :
    ∃ sel : List Nat,
      (∀ j ∈ sel, j < d.boxes.length)
      ∧ (strict_crop_fields d ov clip by0 bx0 bh bw wy0 wx0 wy1 wx1).boxes.length
          = sel.length
      ∧ (∃ tb : Box → Box,
          (strict_crop_fields d ov clip by0 bx0 bh bw wy0 wx0 wy1 wx1).boxes
            = (gather d.boxes sel).map tb)
      ∧ (strict_crop_fields d ov clip by0 bx0 bh bw wy0 wx0 wy1 wx1).labels
          = gather d.labels sel
      ∧ (∀ x, d.label_weights = some x →
          (strict_crop_fields d ov clip by0 bx0 bh bw wy0 wx0 wy1 wx1).label_weights
            = some (gather x sel) ∧ (gather x sel).length = sel.length)
      ∧ (∀ x, d.label_confidences = some x →
          (strict_crop_fields d ov clip by0 bx0 bh bw wy0 wx0 wy1 wx1).label_confidences
            = some (gather x sel) ∧ (gather x sel).length = sel.length)
      ∧ (∀ x, d.multiclass_scores = some x →
          (strict_crop_fields d ov clip by0 bx0 bh bw wy0 wx0 wy1 wx1).multiclass_scores
            = some (gather x sel) ∧ (gather x sel).length = sel.length)
      ∧ (∀ x, d.masks = some x → ∃ tm,
          (strict_crop_fields d ov clip by0 bx0 bh bw wy0 wx0 wy1 wx1).masks
            = some ((gather x sel).map tm)
            ∧ (gather x sel).length = sel.length)
      ∧ (∀ x, d.keypoints = some x → ∃ tk,
          (strict_crop_fields d ov clip by0 bx0 bh bw wy0 wx0 wy1 wx1).keypoints
            = some ((gather x sel).map tk)
            ∧ (gather x sel).length = sel.length) := by
  have hI := prune_inside_ids_lt d.boxes wy0 wx0 wy1 wx1
  have hsel : ∀ j ∈ gather (prune_inside_ids d.boxes wy0 wx0 wy1 wx1)
      (prune_overlap_ids
        (gather d.boxes (prune_inside_ids d.boxes wy0 wx0 wy1 wx1))
        ov wy0 wx0 wy1 wx1), j < d.boxes.length :=
    fun j hj => hI j (gather_mem hj)
  have key : ∀ {β : Type} (x : List β), x.length = d.boxes.length →
      gather (gather x (prune_inside_ids d.boxes wy0 wx0 wy1 wx1))
        (prune_overlap_ids
          (gather d.boxes (prune_inside_ids d.boxes wy0 wx0 wy1 wx1))
          ov wy0 wx0 wy1 wx1)
      = gather x (gather (prune_inside_ids d.boxes wy0 wx0 wy1 wx1)
          (prune_overlap_ids
            (gather d.boxes (prune_inside_ids d.boxes wy0 wx0 wy1 wx1))
            ov wy0 wx0 wy1 wx1)) := by
    intro β x hx
    exact gather_gather x _ _ (fun i hi => by rw [hx]; exact hI i hi)
  have klen : ∀ {β : Type} (x : List β), x.length = d.boxes.length →
      (gather x (gather (prune_inside_ids d.boxes wy0 wx0 wy1 wx1)
        (prune_overlap_ids
          (gather d.boxes (prune_inside_ids d.boxes wy0 wx0 wy1 wx1))
          ov wy0 wx0 wy1 wx1))).length
      = (gather (prune_inside_ids d.boxes wy0 wx0 wy1 wx1)
        (prune_overlap_ids
          (gather d.boxes (prune_inside_ids d.boxes wy0 wx0 wy1 wx1))
          ov wy0 wx0 wy1 wx1)).length := by
    intro β x hx
    exact gather_length x _ (fun j hj => by rw [hx]; exact hsel j hj)
  refine ⟨gather (prune_inside_ids d.boxes wy0 wx0 wy1 wx1)
    (prune_overlap_ids
      (gather d.boxes (prune_inside_ids d.boxes wy0 wx0 wy1 wx1))
      ov wy0 wx0 wy1 wx1), hsel, ?_, ?_, ?_, ?_, ?_, ?_, ?_, ?_⟩
  · -- boxes length
    simp only [strict_crop_fields]
    rw [key d.boxes rfl]
    cases clip <;>
      simp only [Bool.false_eq_true, if_false, if_true, List.length_map] <;>
      exact klen d.boxes rfl
  · -- boxes are a transform of the gathered originals
    refine ⟨fun b => if clip
      then (change_coordinate_frame_box b wy0 wx0 wy1 wx1).clip01
      else change_coordinate_frame_box b wy0 wx0 wy1 wx1, ?_⟩
    simp only [strict_crop_fields]
    rw [key d.boxes rfl]
    cases clip <;> simp [List.map_map, Function.comp]
  · -- labels
    simp only [strict_crop_fields]
    exact key d.labels hlab
  · -- label weights
    intro x hx
    refine ⟨?_, klen x (hlw x hx)⟩
    simp only [strict_crop_fields, hx, Option.map_some']
    rw [key x (hlw x hx)]
  · -- label confidences
    intro x hx
    refine ⟨?_, klen x (hlc x hx)⟩
    simp only [strict_crop_fields, hx, Option.map_some']
    rw [key x (hlc x hx)]
  · -- multiclass scores
    intro x hx
    refine ⟨?_, klen x (hms x hx)⟩
    simp only [strict_crop_fields, hx, Option.map_some']
    rw [key x (hms x hx)]
  · -- masks
    intro x hx
    refine ⟨fun m => slice_mask m by0 bx0 bh bw, ?_, klen x (hmk x hx)⟩
    simp only [strict_crop_fields, hx, Option.map_some']
    rw [key x (hmk x hx)]
  · -- keypoints
    intro x hx
    refine ⟨fun inst => if clip
      then prune_keypoints_outside_unit_window
        (change_coordinate_frame_keypoints inst wy0 wx0 wy1 wx1)
      else change_coordinate_frame_keypoints inst wy0 wx0 wy1 wx1, ?_,
      klen x (hkp x hx)⟩
    simp only [strict_crop_fields, hx, Option.map_some']
    rw [key x (hkp x hx)]
    cases clip <;> simp [List.map_map, Function.comp]

/-- The image tensor as stored in the record: batched rank-4
[1, height, width, channels] at the boundary, unbatched rank-3 inside the
operation loop. -/
inductive TImage where
  | batched (imgs : List Image) : TImage
  | unbatched (img : Image) : TImage
deriving DecidableEq

/-- Tensor rank of the stored image. -/
def TImage.rank : TImage → Nat
  | .batched _ => 4
  | .unbatched _ => 3

/-- The tensor dictionary flowing through `preprocess` (field names from
`standard_fields.InputDataFields`; absent keys are `none`). -/
structure TensorDict where
  image : Option TImage
  groundtruth_boxes : Option (List Box)
  groundtruth_classes : Option (List Int)
  groundtruth_weights : Option (List F)
  groundtruth_confidences : Option (List F)
  multiclass_scores : Option (List (List F))
  groundtruth_instance_masks : Option Masks
  groundtruth_keypoints : Option Keypoints
deriving DecidableEq

/-- The flags of `get_default_func_arg_map`: each decides whether the
corresponding optional field name appears in the argument lists (a `None`
placeholder otherwise). -/
structure FieldFlags where
  include_label_weights : Bool
  include_label_confidences : Bool
  include_multiclass_scores : Bool
  include_instance_masks : Bool
  include_keypoints : Bool
deriving DecidableEq

/-- An `(operation, parameter_map)` entry of the preprocess option list,
restricted to the operations embedded here. -/
inductive OpDesc where
  | hflip (keypoint_flip_permutation : Option (List Nat)) : OpDesc
  | vflip (keypoint_flip_permutation : Option (List Nat)) : OpDesc
  | cropImage (moc : ℚ) (ar area : ℚ × ℚ) (ov : ℚ) (clip : Bool)
      (rc : ℚ) : OpDesc
  | ssdCrop (moc : List ℚ) (ar area : List (ℚ × ℚ)) (ov : List ℚ)
      (cb : List Bool) (rc : List ℚ) : OpDesc
  | jitterBoxes (jitterCoef : ℚ) : OpDesc
deriving DecidableEq

/-- Every embedded operation except box jitter participates in the
replay cache (`random_jitter_boxes` accepts no cache parameter). -/
def OpDesc.cacheAware : OpDesc → Bool
  | .jitterBoxes _ => false
  | _ => true

/-- Missing-argument configuration error, naming the missing field. -/
def missingArg (fieldName : String) : PError :=
  .valueError ("The function requires argument " ++ fieldName)

/-- Input bundle for the crop family built from the dictionary according
to the flags (a `None` placeholder is passed for disabled fields). -/
def cropArgs (flags : FieldFlags) (img : Image) (boxes : List Box)
    (classes : List Int) (d : TensorDict) : CropData :=
  ⟨img, boxes, classes,
   if flags.include_label_weights then d.groundtruth_weights else none,
   if flags.include_label_confidences then d.groundtruth_confidences
     else none,
   if flags.include_multiclass_scores then d.multiclass_scores else none,
   if flags.include_instance_masks then d.groundtruth_instance_masks
     else none,
   if flags.include_keypoints then d.groundtruth_keypoints else none⟩

/-- Write a crop result back into the dictionary: results are stored only
under the argument names that were enabled, all other keys keep their
previous values. -/
def writeCrop (flags : FieldFlags) (d : TensorDict) (o : CropData) :
    TensorDict :=
  { d with
    image := some (.unbatched o.image),
    groundtruth_boxes := some o.boxes,
    groundtruth_classes := some o.labels,
    groundtruth_weights :=
      if flags.include_label_weights then o.label_weights
      else d.groundtruth_weights,
    groundtruth_confidences :=
      if flags.include_label_confidences then o.label_confidences
      else d.groundtruth_confidences,
    multiclass_scores :=
      if flags.include_multiclass_scores then o.multiclass_scores
      else d.multiclass_scores,
    groundtruth_instance_masks :=
      if flags.include_instance_masks then o.masks
      else d.groundtruth_instance_masks,
    groundtruth_keypoints :=
      if flags.include_keypoints then o.keypoints
      else d.groundtruth_keypoints }

/-- Write a flip result back into the dictionary. -/
def writeFlip (flags : FieldFlags) (d : TensorDict) (o : FlipOut) :
    TensorDict :=
  { d with
    image := some (.unbatched o.image),
    groundtruth_boxes := o.boxes,
    groundtruth_instance_masks :=
      if flags.include_instance_masks then o.masks
      else d.groundtruth_instance_masks,
    groundtruth_keypoints :=
      if flags.include_keypoints then o.keypoints
      else d.groundtruth_keypoints }

/-- One iteration of the `preprocess` loop: resolve the operation's
argument names, fail when a required (non-`None`) name is absent from the
dictionary, inject the cache when the operation's signature accepts one
(every embedded operation except box jitter), invoke, and write each
result back under the corresponding name. -/
def runOp (flags : FieldFlags) (op : OpDesc) (d : TensorDict)
    (c : Option Cache) (g : RNG) :
    Except PError TensorDict × Option Cache × RNG :=
  match op with
  | .hflip perm =>
      match d.image, d.groundtruth_boxes with
      | none, _ => (.error (missingArg "image"), c, g)
      | _, none => (.error (missingArg "groundtruth boxes"), c, g)
      | some ti, some boxes =>
        if flags.include_instance_masks
            && d.groundtruth_instance_masks.isNone then
          (.error (missingArg "groundtruth instance masks"), c, g)
        else if flags.include_keypoints
            && d.groundtruth_keypoints.isNone then
          (.error (missingArg "groundtruth keypoints"), c, g)
        else
          match ti with
          | .batched _ => (.error (.valueError "image must be rank 3"), c, g)
          | .unbatched img =>
            let m := if flags.include_instance_masks
              then d.groundtruth_instance_masks else none
            let kp := if flags.include_keypoints
              then d.groundtruth_keypoints else none
            match random_horizontal_flip img (some boxes) m kp perm c g with
            | (.error e, c', g') => (.error e, c', g')
            | (.ok o, c', g') => (.ok (writeFlip flags d o), c', g')
  | .vflip perm =>
      match d.image, d.groundtruth_boxes with
      | none, _ => (.error (missingArg "image"), c, g)
      | _, none => (.error (missingArg "groundtruth boxes"), c, g)
      | some ti, some boxes =>
        if flags.include_instance_masks
            && d.groundtruth_instance_masks.isNone then
          (.error (missingArg "groundtruth instance masks"), c, g)
        else if flags.include_keypoints
            && d.groundtruth_keypoints.isNone then
          (.error (missingArg "groundtruth keypoints"), c, g)
        else
          match ti with
          | .batched _ => (.error (.valueError "image must be rank 3"), c, g)
          | .unbatched img =>
            let m := if flags.include_instance_masks
              then d.groundtruth_instance_masks else none
            let kp := if flags.include_keypoints
              then d.groundtruth_keypoints else none
            match random_vertical_flip img (some boxes) m kp perm c g with
            | (.error e, c', g') => (.error e, c', g')
            | (.ok o, c', g') => (.ok (writeFlip flags d o), c', g')
  | .cropImage moc ar area ov clip rc =>
      match d.image, d.groundtruth_boxes, d.groundtruth_classes with
      | none, _, _ => (.error (missingArg "image"), c, g)
      | _, none, _ => (.error (missingArg "groundtruth boxes"), c, g)
      | _, _, none => (.error (missingArg "groundtruth classes"), c, g)
      | some ti, some boxes, some classes =>
        if flags.include_label_weights
            && d.groundtruth_weights.isNone then
          (.error (missingArg "groundtruth weights"), c, g)
        else if flags.include_label_confidences
            && d.groundtruth_confidences.isNone then
          (.error (missingArg "groundtruth confidences"), c, g)
        else if flags.include_multiclass_scores
            && d.multiclass_scores.isNone then
          (.error (missingArg "multiclass scores"), c, g)
        else if flags.include_instance_masks
            && d.groundtruth_instance_masks.isNone then
          (.error (missingArg "groundtruth instance masks"), c, g)
        else if flags.include_keypoints
            && d.groundtruth_keypoints.isNone then
          (.error (missingArg "groundtruth keypoints"), c, g)
        else
          match ti with
          | .batched _ => (.error (.valueError "image must be rank 3"), c, g)
          | .unbatched img =>
            let r := random_crop_image (cropArgs flags img boxes classes d)
              moc ar area ov clip rc c g
            (.ok (writeCrop flags d r.1), r.2.1, r.2.2)
  | .ssdCrop moc ar area ov cb rc =>
      match d.image, d.groundtruth_boxes, d.groundtruth_classes with
      | none, _, _ => (.error (missingArg "image"), c, g)
      | _, none, _ => (.error (missingArg "groundtruth boxes"), c, g)
      | _, _, none => (.error (missingArg "groundtruth classes"), c, g)
      | some ti, some boxes, some classes =>
        if flags.include_label_weights
            && d.groundtruth_weights.isNone then
          (.error (missingArg "groundtruth weights"), c, g)
        else if flags.include_label_confidences
            && d.groundtruth_confidences.isNone then
          (.error (missingArg "groundtruth confidences"), c, g)
        else if flags.include_multiclass_scores
            && d.multiclass_scores.isNone then
          (.error (missingArg "multiclass scores"), c, g)
        else if flags.include_instance_masks
            && d.groundtruth_instance_masks.isNone then
          (.error (missingArg "groundtruth instance masks"), c, g)
        else if flags.include_keypoints
            && d.groundtruth_keypoints.isNone then
          (.error (missingArg "groundtruth keypoints"), c, g)
        else
          match ti with
          | .batched _ => (.error (.valueError "image must be rank 3"), c, g)
          | .unbatched img =>
            let r := ssd_random_crop (cropArgs flags img boxes classes d)
              moc ar area ov cb rc c g
            (.ok (writeCrop flags d r.1), r.2.1, r.2.2)
  | .jitterBoxes jc =>
      match d.groundtruth_boxes with
      | none => (.error (missingArg "groundtruth boxes"), c, g)
      | some boxes =>
          let r := random_jitter_boxes boxes jc g
          (.ok { d with groundtruth_boxes := some r.1 }, c, r.2)

/-- The `preprocess` loop: operations strictly in list order, each seeing
the cumulative dictionary; a configuration error aborts the call. -/
def runOps (flags : FieldFlags) :
    List OpDesc → TensorDict → Option Cache → RNG →
    Except PError TensorDict × Option Cache × RNG
  | [], d, c, g => (.ok d, c, g)
  | op :: rest, d, c, g =>
      match runOp flags op d c g with
      | (.ok d', c', g') => runOps flags rest d' c' g'
      | (.error e, c', g') => (.error e, c', g')

/-- Model of `preprocess`: rejects a present image that is not rank 4, squeezes the
batch dimension, runs the operation list in order threading the shared
cache, and expands the image back to rank 4. -/
def preprocess (tensor_dict : TensorDict) (preprocess_options : List OpDesc)
    (flags : FieldFlags) (preprocess_vars_cache : Option Cache) (g : RNG) :
    Except PError TensorDict × Option Cache × RNG :=
  match tensor_dict.image with
  | some ti =>
      if ti.rank ≠ 4 then
        (.error (.valueError "images in tensor_dict should be rank 4"),
         preprocess_vars_cache, g)
      else
        match ti with
        | .unbatched _ =>
            (.error (.valueError "images in tensor_dict should be rank 4"),
             preprocess_vars_cache, g)
        | .batched imgs =>
          match imgs with
          | [img] =>
              let d1 := { tensor_dict with image := some (.unbatched img) }
              match runOps flags preprocess_options d1
                  preprocess_vars_cache g with
              | (.ok d2, c', g') =>
                  (match d2.image with
                   | some (.unbatched i) =>
                       (.ok { d2 with image := some (.batched [i]) }, c', g')
                   | _ => (.ok d2, c', g'))
              | (.error e, c', g') => (.error e, c', g')
          | _ =>
              (.error (.valueError "cannot squeeze image batch dimension"),
               preprocess_vars_cache, g)
  | none => runOps flags preprocess_options tensor_dict
      preprocess_vars_cache g

/-- C10: `preprocess` requires a batched image: a present image tensor of
rank other than 4 (in particular the rank-3 unbatched form) is rejected
with a ValueError before any operation of the list is applied — the
result is the error with cache and tape untouched, whatever the operation
list. -/
theorem preprocess_requires_rank4_image (d : TensorDict) (ops : List OpDesc)
    (flags : FieldFlags) (c : Option Cache) (g : RNG) (t : TImage)
    (himg : d.image = some t) (hrank : t.rank ≠ 4) :
    preprocess d ops flags c g
      = (.error (.valueError "images in tensor_dict should be rank 4"),
         c, g) := by
  cases t with
  | batched imgs => exact absurd rfl hrank
  | unbatched img => simp [preprocess, himg, TImage.rank]

theorem preprocess_requires_rank4_image_witness :
    preprocess
        ⟨some (.unbatched [[[F.val 0]]]), some [], none, none, none, none,
         none, none⟩
        [] ⟨true, false, false, false, false⟩ none ⟨[]⟩
      = (.error (.valueError "images in tensor_dict should be rank 4"),
         none, ⟨[]⟩) :=
  preprocess_requires_rank4_image
    ⟨some (.unbatched [[[F.val 0]]]), some [], none, none, none, none,
     none, none⟩
    [] ⟨true, false, false, false, false⟩ none ⟨[]⟩
    (.unbatched [[[F.val 0]]]) rfl (by decide)

/-- C3: box jitter is excluded from caching: the orchestrator never
injects the cache into it (the cache component is returned unchanged for
every dictionary and cache), its draws are taken fresh from the tape on
every call, and two `preprocess` calls sharing the same cache instance on
identical inputs produce different boxes for different tapes. -/
theorem random_jitter_boxes_not_cached :
    (∀ flags jc d c g,
      (runOp flags (.jitterBoxes jc) d c g).2.1 = c)
    ∧ (preprocess
        ⟨some (.batched [[[[F.val 0]]]]),
         some [⟨F.val 0, F.val 0, F.val 1, F.val 1⟩],
         none, none, none, none, none, none⟩
        [.jitterBoxes (1/20)] ⟨true, false, false, false, false⟩
        (some Cache.empty)
        ⟨[.f (.val (1/20)), .f (.val (1/20)), .f (.val (1/20)),
          .f (.val (1/20))]⟩).2.1 = some Cache.empty
    ∧ (preprocess
        ⟨some (.batched [[[[F.val 0]]]]),
         some [⟨F.val 0, F.val 0, F.val 1, F.val 1⟩],
         none, none, none, none, none, none⟩
        [.jitterBoxes (1/20)] ⟨true, false, false, false, false⟩
        (some Cache.empty) ⟨[]⟩).2.1 = some Cache.empty
    ∧ (preprocess
        ⟨some (.batched [[[[F.val 0]]]]),
         some [⟨F.val 0, F.val 0, F.val 1, F.val 1⟩],
         none, none, none, none, none, none⟩
        [.jitterBoxes (1/20)] ⟨true, false, false, false, false⟩
        (some Cache.empty)
        ⟨[.f (.val (1/20)), .f (.val (1/20)), .f (.val (1/20)),
          .f (.val (1/20))]⟩).1
      ≠ (preprocess
        ⟨some (.batched [[[[F.val 0]]]]),
         some [⟨F.val 0, F.val 0, F.val 1, F.val 1⟩],
         none, none, none, none, none, none⟩
        [.jitterBoxes (1/20)] ⟨true, false, false, false, false⟩
        (some Cache.empty) ⟨[]⟩).1 := by
  refine ⟨?_, ?_, ?_, ?_⟩
  · intro flags jc d c g
    cases h : d.groundtruth_boxes <;> simp [runOp, h]
  · rfl
  · rfl
  · intro h
    simp only [preprocess, runOps, runOp, random_jitter_boxes,
      random_jitter_box, canonUniformRange, RNG.next, F.add, F.mul, F.sub,
      F.clip01, TImage.rank] at h
    norm_num at h

/-- Cache extension: every binding of the first cache is present
unchanged in the second (insert-only growth). -/
def Cache.Sub (c₁ c₂ : Cache) : Prop :=
  ∀ fid k v, c₁.get fid k = some v → c₂.get fid k = some v

theorem Cache.Sub.refl (c : Cache) : c.Sub c := fun _ _ _ h => h

theorem Cache.Sub.trans {a b c : Cache} (h₁ : a.Sub b) (h₂ : b.Sub c) :
    a.Sub c := fun fid k v h => h₂ fid k v (h₁ fid k v h)

theorem Cache.sub_update (c : Cache) (fid : FnId) (k : SubKey) (v : RVal)
    (h : c.get fid k = none) : c.Sub (c.update fid k v) := by
  intro fid' k' v' hv
  rcases Decidable.em ((fid', k') = (fid, k)) with he | he
  · rw [Prod.mk.injEq] at he
    obtain ⟨rfl, rfl⟩ := he
    rw [h] at hv
    exact absurd hv (by simp)
  · rw [Cache.get_update_other c fid fid' k k' v he]
    exact hv

/-- A transformer of (cache, tape) state is replayable when running it on
a cache only grows the cache, and re-running it on any extension of the
grown cache reproduces the same output while leaving both the cache and
the tape untouched. -/
def Replayable (f : Option Cache → RNG → α × Option Cache × RNG) : Prop :=
  ∀ c g, ∃ c' : Cache,
    (f (some c) g).2.1 = some c'
    ∧ c.Sub c'
    ∧ ∀ C g₂, c'.Sub C →
        f (some C) g₂ = ((f (some c) g).1, some C, g₂)

theorem replayable_const (out : α) :
    Replayable (fun c g => (out, c, g)) :=
  fun c _ => ⟨c, rfl, Cache.Sub.refl c, fun _ _ _ => rfl⟩

theorem replayable_ext (f' : Option Cache → RNG → α × Option Cache × RNG)
    {f : Option Cache → RNG → α × Option Cache × RNG}
    (hext : ∀ c g, f c g = f' c g) (hf' : Replayable f') : Replayable f := by
  intro c g
  obtain ⟨c', h, hs, hr⟩ := hf' c g
  refine ⟨c', ?_, hs, fun C g₂ hsub => ?_⟩
  · rw [hext (some c) g]; exact h
  · rw [hext (some C) g₂, hext (some c) g]; exact hr C g₂ hsub

theorem replayable_get_or_create (gen : RNG → RVal × RNG) (fid : FnId)
    (k : SubKey) :
    Replayable (fun c g =>
      get_or_create_preprocess_rand_vars gen fid c k g) := by
  intro c g
  cases hc : c.get fid k with
  | some v =>
      refine ⟨c, ?_, Cache.Sub.refl c, ?_⟩
      · simp [get_or_create_preprocess_rand_vars, hc]
      · intro C g₂ hsub
        have hC := hsub fid k v hc
        simp [get_or_create_preprocess_rand_vars, hc, hC]
  | none =>
      refine ⟨c.update fid k (gen g).1, ?_,
        Cache.sub_update c fid k _ hc, ?_⟩
      · simp [get_or_create_preprocess_rand_vars, hc]
      · intro C g₂ hsub
        have hC := hsub fid k (gen g).1 (Cache.get_update_self c fid k _)
        simp [get_or_create_preprocess_rand_vars, hc, hC]

theorem Replayable.postcomp
    {f : Option Cache → RNG → α × Option Cache × RNG}
    (hf : Replayable f) (t : α → β) :
    Replayable (fun c g =>
      (t (f c g).1, (f c g).2.1, (f c g).2.2)) := by
  intro c g
  obtain ⟨c', h, hs, hr⟩ := hf c g
  refine ⟨c', h, hs, fun C g₂ hsub => ?_⟩
  show (t (f (some C) g₂).1, (f (some C) g₂).2.1, (f (some C) g₂).2.2)
      = (t (f (some c) g).1, some C, g₂)
  rw [hr C g₂ hsub]

theorem replayable_hflip (img : Image) (b : Option (List Box))
    (m : Option Masks) (kp : Option Keypoints)
    (perm : Option (List Nat)) :
    Replayable (random_horizontal_flip img b m kp perm) := by
  by_cases hchk : (kp.isSome && perm.isNone) = true
  · exact replayable_ext
      (fun c g => (.error (.valueError
        "keypoints are provided but keypoints flip permutation is not provided"),
        c, g))
      (fun c g => by simp [random_horizontal_flip, hchk])
      (replayable_const _)
  · intro c g
    cases hc : c.get .horizontalFlip .empty with
    | some v =>
        refine ⟨c, ?_, Cache.Sub.refl c, ?_⟩
        · simp [random_horizontal_flip, hchk,
            get_or_create_preprocess_rand_vars, hc]
        · intro C g₂ hsub
          have hC := hsub _ _ _ hc
          simp [random_horizontal_flip, hchk,
            get_or_create_preprocess_rand_vars, hc, hC]
    | none =>
        refine ⟨c.update .horizontalFlip .empty (uniform01 g).1, ?_,
          Cache.sub_update c _ _ _ hc, ?_⟩
        · simp [random_horizontal_flip, hchk,
            get_or_create_preprocess_rand_vars, hc]
        · intro C g₂ hsub
          have hC := hsub _ _ _ (Cache.get_update_self c _ _ _)
          simp [random_horizontal_flip, hchk,
            get_or_create_preprocess_rand_vars, hc, hC]

theorem replayable_vflip (img : Image) (b : Option (List Box))
    (m : Option Masks) (kp : Option Keypoints)
    (perm : Option (List Nat)) :
    Replayable (random_vertical_flip img b m kp perm) := by
  by_cases hchk : (kp.isSome && perm.isNone) = true
  · exact replayable_ext
      (fun c g => (.error (.valueError
        "keypoints are provided but keypoints flip permutation is not provided"),
        c, g))
      (fun c g => by simp [random_vertical_flip, hchk])
      (replayable_const _)
  · intro c g
    cases hc : c.get .verticalFlip .empty with
    | some v =>
        refine ⟨c, ?_, Cache.Sub.refl c, ?_⟩
        · simp [random_vertical_flip, hchk,
            get_or_create_preprocess_rand_vars, hc]
        · intro C g₂ hsub
          have hC := hsub _ _ _ hc
          simp [random_vertical_flip, hchk,
            get_or_create_preprocess_rand_vars, hc, hC]
    | none =>
        refine ⟨c.update .verticalFlip .empty (uniform01 g).1, ?_,
          Cache.sub_update c _ _ _ hc, ?_⟩
        · simp [random_vertical_flip, hchk,
            get_or_create_preprocess_rand_vars, hc]
        · intro C g₂ hsub
          have hC := hsub _ _ _ (Cache.get_update_self c _ _ _)
          simp [random_vertical_flip, hchk,
            get_or_create_preprocess_rand_vars, hc, hC]

theorem replayable_strict_crop (d : CropData) (moc : ℚ) (ar area : ℚ × ℚ)
    (ov : ℚ) (clip : Bool) :
    Replayable (strict_random_crop_image d moc ar area ov clip) := by
  intro c g
  cases hc : c.get .strictCropImage (.minObjCov moc) with
  | some v =>
      refine ⟨c, ?_, Cache.Sub.refl c, ?_⟩
      · simp [strict_random_crop_image,
          get_or_create_preprocess_rand_vars, hc]
      · intro C g₂ hsub
        have hC := hsub _ _ _ hc
        simp [strict_random_crop_image,
          get_or_create_preprocess_rand_vars, hc, hC]
  | none =>
      refine ⟨c.update .strictCropImage (.minObjCov moc)
        (sample_distorted_bounding_box_gen (imageHeight d.image)
          (imageWidth d.image) g).1, ?_,
        Cache.sub_update c _ _ _ hc, ?_⟩
      · simp [strict_random_crop_image,
          get_or_create_preprocess_rand_vars, hc]
      · intro C g₂ hsub
        have hC := hsub _ _ _ (Cache.get_update_self c _ _ _)
        simp [strict_random_crop_image,
          get_or_create_preprocess_rand_vars, hc, hC]

theorem replayable_crop (d : CropData) (moc : ℚ) (ar area : ℚ × ℚ)
    (ov : ℚ) (clip : Bool) (rc : ℚ) :
    Replayable (random_crop_image d moc ar area ov clip rc) := by
  by_cases hrc : rc < sys_float_info_min
  · exact replayable_ext
      (fun c g => strict_random_crop_image d moc ar area ov clip c g)
      (fun c g => by simp [random_crop_image, hrc])
      (replayable_strict_crop d moc ar area ov clip)
  · intro c g
    obtain ⟨c₁, h1, hs1, hr1⟩ :=
      replayable_get_or_create uniform01 .cropImage .empty c g
    obtain ⟨c₂, h2, hs2, hr2⟩ := replayable_strict_crop d moc ar area ov
      clip c₁ (get_or_create_preprocess_rand_vars uniform01 .cropImage
        (some c) .empty g).2.2
    refine ⟨c₂, ?_, Cache.Sub.trans hs1 hs2, ?_⟩
    · dsimp only [] at h1 h2
      simp only [random_crop_image, if_neg hrc]
      rw [h1]
      cases hdc : ((get_or_create_preprocess_rand_vars uniform01 .cropImage
          (some c) .empty g).1.toF.gtQ rc) <;> simp [hdc, h2]
    · intro C g₂ hsub
      have e1 := hr1 C g₂ (Cache.Sub.trans hs2 hsub)
      have e2 := hr2 C g₂ hsub
      dsimp only [] at e1 e2 h1 h2
      simp only [random_crop_image, if_neg hrc]
      rw [e1, h1]
      simp only
      rw [e2]
      cases hdc : ((get_or_create_preprocess_rand_vars uniform01 .cropImage
          (some c) .empty g).1.toF.gtQ rc) <;> simp [hdc]

theorem replayable_runBranches
    (func : Nat → Option Cache → RNG → CropData × Option Cache × RNG)
    (hfunc : ∀ i, Replayable (func i)) (ids : List Nat) :
    Replayable (runBranches func ids) := by
  induction ids with
  | nil =>
      exact replayable_ext (fun c g => ([], c, g))
        (fun c g => rfl) (replayable_const _)
  | cons i rest ih =>
      intro c g
      obtain ⟨c₁, h1, hs1, hr1⟩ := hfunc i c g
      obtain ⟨c₂, h2, hs2, hr2⟩ := ih c₁ (func i (some c) g).2.2
      refine ⟨c₂, ?_, Cache.Sub.trans hs1 hs2, ?_⟩
      · simp only [runBranches]
        rw [h1]
        exact h2
      · intro C g₂ hsub
        have e1 := hr1 C g₂ (Cache.Sub.trans hs2 hsub)
        have e2 := hr2 C g₂ hsub
        simp only [runBranches]
        rw [e1, h1]
        dsimp only []
        rw [e2]

theorem replayable_selector_tuples (x : CropData)
    (func : CropData → Nat → Option Cache → RNG →
      CropData × Option Cache × RNG)
    (hfunc : ∀ i, Replayable (func x i)) (num_cases : Nat) (key : SubKey) :
    Replayable (fun c g =>
      apply_with_random_selector_tuples x func num_cases c key g) := by
  intro c g
  obtain ⟨c₁, h1, hs1, hr1⟩ :=
    replayable_get_or_create (uniformIntGen num_cases) .selectorTuples key
      c g
  obtain ⟨c₂, h2, hs2, hr2⟩ :=
    replayable_runBranches (fun i c' g' => func x i c' g') hfunc
      (List.range num_cases) c₁
      (get_or_create_preprocess_rand_vars (uniformIntGen num_cases)
        .selectorTuples (some c) key g).2.2
  refine ⟨c₂, ?_, Cache.Sub.trans hs1 hs2, ?_⟩
  · dsimp only [] at h1 h2
    simp only [apply_with_random_selector_tuples]
    rw [h1]
    exact h2
  · intro C g₂ hsub
    have e1 := hr1 C g₂ (Cache.Sub.trans hs2 hsub)
    have e2 := hr2 C g₂ hsub
    dsimp only [] at e1 e2 h1 h2
    simp only [apply_with_random_selector_tuples]
    rw [e1, h1]
    dsimp only []
    rw [e2]

theorem replayable_ssd_crop (d : CropData) (moc : List ℚ)
    (ar area : List (ℚ × ℚ)) (ov : List ℚ) (cb : List Bool)
    (rc : List ℚ) :
    Replayable (ssd_random_crop d moc ar area ov cb rc) :=
  replayable_selector_tuples d _
    (fun i => replayable_crop d (moc.getD i 0) (ar.getD i (0, 0))
      (area.getD i (0, 0)) (ov.getD i 0) (cb.getD i true) (rc.getD i 0))
    moc.length .ssdCropSelectorId

theorem replayable_runOp (flags : FieldFlags) (op : OpDesc) (d : TensorDict)
    (hop : op.cacheAware = true) :
    Replayable (runOp flags op d) := by
  cases op with
  | jitterBoxes jc => simp [OpDesc.cacheAware] at hop
  | hflip perm =>
      cases hti : d.image with
      | none =>
          exact replayable_ext
            (fun c g => (.error (missingArg "image"), c, g))
            (fun c g => by simp [runOp, hti]) (replayable_const _)
      | some ti =>
        cases hbx : d.groundtruth_boxes with
        | none =>
            exact replayable_ext
              (fun c g => (.error (missingArg "groundtruth boxes"), c, g))
              (fun c g => by simp [runOp, hti, hbx]) (replayable_const _)
        | some boxes =>
          by_cases hm : (flags.include_instance_masks
              && d.groundtruth_instance_masks.isNone) = true
          · exact replayable_ext
              (fun c g =>
                (.error (missingArg "groundtruth instance masks"), c, g))
              (fun c g => by simp [runOp, hti, hbx, hm])
              (replayable_const _)
          · by_cases hk : (flags.include_keypoints
                && d.groundtruth_keypoints.isNone) = true
            · exact replayable_ext
                (fun c g =>
                  (.error (missingArg "groundtruth keypoints"), c, g))
                (fun c g => by simp [runOp, hti, hbx, hm, hk])
                (replayable_const _)
            · cases ti with
              | batched imgs =>
                  exact replayable_ext
                    (fun c g =>
                      (.error (.valueError "image must be rank 3"), c, g))
                    (fun c g => by simp [runOp, hti, hbx, hm, hk])
                    (replayable_const _)
              | unbatched img =>
                  exact replayable_ext
                    (fun c g =>
                      ((fun res => match res with
                        | .error e => (.error e : Except PError TensorDict)
                        | .ok o => .ok (writeFlip flags d o))
                        (random_horizontal_flip img (some boxes)
                          (if flags.include_instance_masks
                            then d.groundtruth_instance_masks else none)
                          (if flags.include_keypoints
                            then d.groundtruth_keypoints else none)
                          perm c g).1,
                       (random_horizontal_flip img (some boxes)
                          (if flags.include_instance_masks
                            then d.groundtruth_instance_masks else none)
                          (if flags.include_keypoints
                            then d.groundtruth_keypoints else none)
                          perm c g).2.1,
                       (random_horizontal_flip img (some boxes)
                          (if flags.include_instance_masks
                            then d.groundtruth_instance_masks else none)
                          (if flags.include_keypoints
                            then d.groundtruth_keypoints else none)
                          perm c g).2.2))
                    (fun c g => by
                      simp only [runOp, hti, hbx, hm, hk, Bool.false_eq_true,
                        if_false]
                      rcases random_horizontal_flip img (some boxes)
                        (if flags.include_instance_masks
                          then d.groundtruth_instance_masks else none)
                        (if flags.include_keypoints
                          then d.groundtruth_keypoints else none)
                        perm c g with ⟨res, cc, gg⟩
                      cases res <;> rfl)
                    ((replayable_hflip img (some boxes)
                      (if flags.include_instance_masks
                        then d.groundtruth_instance_masks else none)
                      (if flags.include_keypoints
                        then d.groundtruth_keypoints else none)
                      perm).postcomp
                      (fun res => match res with
                        | .error e => (.error e : Except PError TensorDict)
                        | .ok o => .ok (writeFlip flags d o)))
  | vflip perm =>
      cases hti : d.image with
      | none =>
          exact replayable_ext
            (fun c g => (.error (missingArg "image"), c, g))
            (fun c g => by simp [runOp, hti]) (replayable_const _)
      | some ti =>
        cases hbx : d.groundtruth_boxes with
        | none =>
            exact replayable_ext
              (fun c g => (.error (missingArg "groundtruth boxes"), c, g))
              (fun c g => by simp [runOp, hti, hbx]) (replayable_const _)
        | some boxes =>
          by_cases hm : (flags.include_instance_masks
              && d.groundtruth_instance_masks.isNone) = true
          · exact replayable_ext
              (fun c g =>
                (.error (missingArg "groundtruth instance masks"), c, g))
              (fun c g => by simp [runOp, hti, hbx, hm])
              (replayable_const _)
          · by_cases hk : (flags.include_keypoints
                && d.groundtruth_keypoints.isNone) = true
            · exact replayable_ext
                (fun c g =>
                  (.error (missingArg "groundtruth keypoints"), c, g))
                (fun c g => by simp [runOp, hti, hbx, hm, hk])
                (replayable_const _)
            · cases ti with
              | batched imgs =>
                  exact replayable_ext
                    (fun c g =>
                      (.error (.valueError "image must be rank 3"), c, g))
                    (fun c g => by simp [runOp, hti, hbx, hm, hk])
                    (replayable_const _)
              | unbatched img =>
                  exact replayable_ext
                    (fun c g =>
                      ((fun res => match res with
                        | .error e => (.error e : Except PError TensorDict)
                        | .ok o => .ok (writeFlip flags d o))
                        (random_vertical_flip img (some boxes)
                          (if flags.include_instance_masks
                            then d.groundtruth_instance_masks else none)
                          (if flags.include_keypoints
                            then d.groundtruth_keypoints else none)
                          perm c g).1,
                       (random_vertical_flip img (some boxes)
                          (if flags.include_instance_masks
                            then d.groundtruth_instance_masks else none)
                          (if flags.include_keypoints
                            then d.groundtruth_keypoints else none)
                          perm c g).2.1,
                       (random_vertical_flip img (some boxes)
                          (if flags.include_instance_masks
                            then d.groundtruth_instance_masks else none)
                          (if flags.include_keypoints
                            then d.groundtruth_keypoints else none)
                          perm c g).2.2))
                    (fun c g => by
                      simp only [runOp, hti, hbx, hm, hk, Bool.false_eq_true,
                        if_false]
                      rcases random_vertical_flip img (some boxes)
                        (if flags.include_instance_masks
                          then d.groundtruth_instance_masks else none)
                        (if flags.include_keypoints
                          then d.groundtruth_keypoints else none)
                        perm c g with ⟨res, cc, gg⟩
                      cases res <;> rfl)
                    ((replayable_vflip img (some boxes)
                      (if flags.include_instance_masks
                        then d.groundtruth_instance_masks else none)
                      (if flags.include_keypoints
                        then d.groundtruth_keypoints else none)
                      perm).postcomp
                      (fun res => match res with
                        | .error e => (.error e : Except PError TensorDict)
                        | .ok o => .ok (writeFlip flags d o)))
  | cropImage moc ar area ov clip rc =>
      cases hti : d.image with
      | none =>
          exact replayable_ext
            (fun c g => (.error (missingArg "image"), c, g))
            (fun c g => by simp [runOp, hti]) (replayable_const _)
      | some ti =>
        cases hbx : d.groundtruth_boxes with
        | none =>
            exact replayable_ext
              (fun c g => (.error (missingArg "groundtruth boxes"), c, g))
              (fun c g => by simp [runOp, hti, hbx]) (replayable_const _)
        | some boxes =>
          cases hcl : d.groundtruth_classes with
          | none =>
              exact replayable_ext
                (fun c g =>
                  (.error (missingArg "groundtruth classes"), c, g))
                (fun c g => by simp [runOp, hti, hbx, hcl])
                (replayable_const _)
          | some classes =>
            by_cases hw : (flags.include_label_weights
                && d.groundtruth_weights.isNone) = true
            · exact replayable_ext
                (fun c g =>
                  (.error (missingArg "groundtruth weights"), c, g))
                (fun c g => by simp [runOp, hti, hbx, hcl, hw])
                (replayable_const _)
            · by_cases hcf : (flags.include_label_confidences
                  && d.groundtruth_confidences.isNone) = true
              · exact replayable_ext
                  (fun c g =>
                    (.error (missingArg "groundtruth confidences"), c, g))
                  (fun c g => by simp [runOp, hti, hbx, hcl, hw, hcf])
                  (replayable_const _)
              · by_cases hms : (flags.include_multiclass_scores
                    && d.multiclass_scores.isNone) = true
                · exact replayable_ext
                    (fun c g =>
                      (.error (missingArg "multiclass scores"), c, g))
                    (fun c g => by
                      simp [runOp, hti, hbx, hcl, hw, hcf, hms])
                    (replayable_const _)
                · by_cases hm : (flags.include_instance_masks
                      && d.groundtruth_instance_masks.isNone) = true
                  · exact replayable_ext
                      (fun c g =>
                        (.error (missingArg "groundtruth instance masks"),
                         c, g))
                      (fun c g => by
                        simp [runOp, hti, hbx, hcl, hw, hcf, hms, hm])
                      (replayable_const _)
                  · by_cases hk : (flags.include_keypoints
                        && d.groundtruth_keypoints.isNone) = true
                    · exact replayable_ext
                        (fun c g =>
                          (.error (missingArg "groundtruth keypoints"),
                           c, g))
                        (fun c g => by
                          simp [runOp, hti, hbx, hcl, hw, hcf, hms, hm, hk])
                        (replayable_const _)
                    · cases ti with
                      | batched imgs =>
                          exact replayable_ext
                            (fun c g =>
                              (.error (.valueError "image must be rank 3"),
                               c, g))
                            (fun c g => by
                              simp [runOp, hti, hbx, hcl, hw, hcf, hms, hm,
                                hk])
                            (replayable_const _)
                      | unbatched img =>
                          exact replayable_ext
                            (fun c g =>
                              ((fun o => (Except.ok (writeCrop flags d o) :
                                  Except PError TensorDict))
                                (random_crop_image
                                  (cropArgs flags img boxes classes d)
                                  moc ar area ov clip rc c g).1,
                               (random_crop_image
                                  (cropArgs flags img boxes classes d)
                                  moc ar area ov clip rc c g).2.1,
                               (random_crop_image
                                  (cropArgs flags img boxes classes d)
                                  moc ar area ov clip rc c g).2.2))
                            (fun c g => by
                              simp only [runOp, hti, hbx, hcl, hw, hcf, hms,
                                hm, hk, Bool.false_eq_true, if_false])
                            ((replayable_crop
                              (cropArgs flags img boxes classes d)
                              moc ar area ov clip rc).postcomp
                              (fun o => (Except.ok (writeCrop flags d o) :
                                Except PError TensorDict)))
  | ssdCrop moc ar area ov cb rc =>
      cases hti : d.image with
      | none =>
          exact replayable_ext
            (fun c g => (.error (missingArg "image"), c, g))
            (fun c g => by simp [runOp, hti]) (replayable_const _)
      | some ti =>
        cases hbx : d.groundtruth_boxes with
        | none =>
            exact replayable_ext
              (fun c g => (.error (missingArg "groundtruth boxes"), c, g))
              (fun c g => by simp [runOp, hti, hbx]) (replayable_const _)
        | some boxes =>
          cases hcl : d.groundtruth_classes with
          | none =>
              exact replayable_ext
                (fun c g =>
                  (.error (missingArg "groundtruth classes"), c, g))
                (fun c g => by simp [runOp, hti, hbx, hcl])
                (replayable_const _)
          | some classes =>
            by_cases hw : (flags.include_label_weights
                && d.groundtruth_weights.isNone) = true
            · exact replayable_ext
                (fun c g =>
                  (.error (missingArg "groundtruth weights"), c, g))
                (fun c g => by simp [runOp, hti, hbx, hcl, hw])
                (replayable_const _)
            · by_cases hcf : (flags.include_label_confidences
                  && d.groundtruth_confidences.isNone) = true
              · exact replayable_ext
                  (fun c g =>
                    (.error (missingArg "groundtruth confidences"), c, g))
                  (fun c g => by simp [runOp, hti, hbx, hcl, hw, hcf])
                  (replayable_const _)
              · by_cases hms : (flags.include_multiclass_scores
                    && d.multiclass_scores.isNone) = true
                · exact replayable_ext
                    (fun c g =>
                      (.error (missingArg "multiclass scores"), c, g))
                    (fun c g => by
                      simp [runOp, hti, hbx, hcl, hw, hcf, hms])
                    (replayable_const _)
                · by_cases hm : (flags.include_instance_masks
                      && d.groundtruth_instance_masks.isNone) = true
                  · exact replayable_ext
                      (fun c g =>
                        (.error (missingArg "groundtruth instance masks"),
                         c, g))
                      (fun c g => by
                        simp [runOp, hti, hbx, hcl, hw, hcf, hms, hm])
                      (replayable_const _)
                  · by_cases hk : (flags.include_keypoints
                        && d.groundtruth_keypoints.isNone) = true
                    · exact replayable_ext
                        (fun c g =>
                          (.error (missingArg "groundtruth keypoints"),
                           c, g))
                        (fun c g => by
                          simp [runOp, hti, hbx, hcl, hw, hcf, hms, hm, hk])
                        (replayable_const _)
                    · cases ti with
                      | batched imgs =>
                          exact replayable_ext
                            (fun c g =>
                              (.error (.valueError "image must be rank 3"),
                               c, g))
                            (fun c g => by
                              simp [runOp, hti, hbx, hcl, hw, hcf, hms, hm,
                                hk])
                            (replayable_const _)
                      | unbatched img =>
                          exact replayable_ext
                            (fun c g =>
                              ((fun o => (Except.ok (writeCrop flags d o) :
                                  Except PError TensorDict))
                                (ssd_random_crop
                                  (cropArgs flags img boxes classes d)
                                  moc ar area ov cb rc c g).1,
                               (ssd_random_crop
                                  (cropArgs flags img boxes classes d)
                                  moc ar area ov cb rc c g).2.1,
                               (ssd_random_crop
                                  (cropArgs flags img boxes classes d)
                                  moc ar area ov cb rc c g).2.2))
                            (fun c g => by
                              simp only [runOp, hti, hbx, hcl, hw, hcf, hms,
                                hm, hk, Bool.false_eq_true, if_false])
                            ((replayable_ssd_crop
                              (cropArgs flags img boxes classes d)
                              moc ar area ov cb rc).postcomp
                              (fun o => (Except.ok (writeCrop flags d o) :
                                Except PError TensorDict)))

theorem replayable_runOps (flags : FieldFlags) (ops : List OpDesc)
    (hops : ∀ op ∈ ops, op.cacheAware = true) :
    ∀ d : TensorDict, Replayable (runOps flags ops d) := by
  induction ops with
  | nil =>
      intro d
      exact replayable_ext (fun c g => (.ok d, c, g))
        (fun c g => rfl) (replayable_const _)
  | cons op rest ih =>
      intro d c g
      obtain ⟨c₁, h1, hs1, hr1⟩ := replayable_runOp flags op d
        (hops op (List.mem_cons_self op rest)) c g
      rcases hro : runOp flags op d (some c) g with ⟨res, cc, gg⟩
      have hcc : cc = some c₁ := by rw [← h1, hro]
      subst hcc
      cases res with
      | error e =>
          refine ⟨c₁, ?_, hs1, ?_⟩
          · simp [runOps, hro]
          · intro C g₂ hsub
            have e1 := hr1 C g₂ hsub
            rw [hro] at e1
            simp [runOps, e1, hro]
      | ok d' =>
          obtain ⟨c₂, h2, hs2, hr2⟩ :=
            ih (fun o ho => hops o (List.mem_cons_of_mem op ho)) d' c₁ gg
          refine ⟨c₂, ?_, Cache.Sub.trans hs1 hs2, ?_⟩
          · simp [runOps, hro, h2]
          · intro C g₂ hsub
            have e1 := hr1 C g₂ (Cache.Sub.trans hs2 hsub)
            rw [hro] at e1
            have e2 := hr2 C g₂ hsub
            simp [runOps, e1, e2, hro]

theorem replayable_preprocess (d : TensorDict) (ops : List OpDesc)
    (flags : FieldFlags) (hops : ∀ op ∈ ops, op.cacheAware = true) :
    Replayable (preprocess d ops flags) := by
  cases hti : d.image with
  | none =>
      exact replayable_ext (runOps flags ops d)
        (fun c g => by simp [preprocess, hti])
        (replayable_runOps flags ops hops d)
  | some ti =>
      cases ti with
      | unbatched img =>
          exact replayable_ext
            (fun c g => (.error (.valueError
              "images in tensor_dict should be rank 4"), c, g))
            (fun c g => by simp [preprocess, hti, TImage.rank])
            (replayable_const _)
      | batched imgs =>
          match imgs with
          | [] =>
              exact replayable_ext
                (fun c g => (.error (.valueError
                  "cannot squeeze image batch dimension"), c, g))
                (fun c g => by simp [preprocess, hti, TImage.rank])
                (replayable_const _)
          | img :: img2 :: rest =>
              exact replayable_ext
                (fun c g => (.error (.valueError
                  "cannot squeeze image batch dimension"), c, g))
                (fun c g => by simp [preprocess, hti, TImage.rank])
                (replayable_const _)
          | [img] =>
              exact replayable_ext
                (fun c g =>
                  ((fun res => match res with
                    | .error e => (.error e : Except PError TensorDict)
                    | .ok d2 =>
                        match d2.image with
                        | some (.unbatched i) =>
                            .ok { d2 with image := some (.batched [i]) }
                        | _ => .ok d2)
                    (runOps flags ops
                      { d with image := some (.unbatched img) } c g).1,
                   (runOps flags ops
                      { d with image := some (.unbatched img) } c g).2.1,
                   (runOps flags ops
                      { d with image := some (.unbatched img) } c g).2.2))
                (fun c g => by
                  simp only [preprocess, hti, TImage.rank]
                  rcases runOps flags ops
                    { d with image := some (.unbatched img) } c g
                    with ⟨res, cc, gg⟩
                  cases res with
                  | error e => rfl
                  | ok d2 =>
                      cases hd2 : d2.image with
                      | none => simp [hd2]
                      | some t2 => cases t2 <;> simp [hd2])
                ((replayable_runOps flags ops hops
                  { d with image := some (.unbatched img) }).postcomp
                  (fun res => match res with
                    | .error e => (.error e : Except PError TensorDict)
                    | .ok d2 =>
                        match d2.image with
                        | some (.unbatched i) =>
                            .ok { d2 with image := some (.batched [i]) }
                        | _ => .ok d2))

/-- C1 (amended): for an operation list of cache-aware operations (box
jitter excluded), a `preprocess` call with a non-None cache grows that
cache, and a second call sharing the resulting cache instance on the
bit-identical input record, operation list and parameters reproduces the
first call's output record exactly, whatever random tape the second call
runs with — the two calls' outputs are bit-identical on every field. -/
theorem preprocess_shared_cache_deterministic (d : TensorDict)
    (ops : List OpDesc) (flags : FieldFlags) (c : Cache) (g : RNG)
    (hops : ∀ op ∈ ops, op.cacheAware = true) :
    ∃ c' : Cache,
      (preprocess d ops flags (some c) g).2.1 = some c'
      ∧ ∀ g₂ : RNG,
          preprocess d ops flags (some c') g₂
            = ((preprocess d ops flags (some c) g).1, some c', g₂) := by
  obtain ⟨c', h, _, hr⟩ := replayable_preprocess d ops flags hops c g
  exact ⟨c', h, fun g₂ => hr c' g₂ (Cache.Sub.refl c')⟩

theorem preprocess_shared_cache_deterministic_witness :
    ∃ c' : Cache,
      (preprocess
        ⟨some (.batched [[[[F.val 0], [F.val 1]]]]), some [], none, none,
         none, none, none, none⟩
        [.hflip none] ⟨true, false, false, false, false⟩
        (some Cache.empty) ⟨[.f (.val (9/10))]⟩).2.1 = some c'
      ∧ ∀ g₂ : RNG,
          preprocess
            ⟨some (.batched [[[[F.val 0], [F.val 1]]]]), some [], none,
             none, none, none, none, none⟩
            [.hflip none] ⟨true, false, false, false, false⟩
            (some c') g₂
          = ((preprocess
              ⟨some (.batched [[[[F.val 0], [F.val 1]]]]), some [], none,
               none, none, none, none, none⟩
              [.hflip none] ⟨true, false, false, false, false⟩
              (some Cache.empty) ⟨[.f (.val (9/10))]⟩).1, some c', g₂) :=
  preprocess_shared_cache_deterministic
    ⟨some (.batched [[[[F.val 0], [F.val 1]]]]), some [], none, none,
     none, none, none, none⟩
    [.hflip none] ⟨true, false, false, false, false⟩ Cache.empty
    ⟨[.f (.val (9/10))]⟩
    (by intro op hop
        simp only [List.mem_singleton] at hop
        subst hop
        rfl)

/-- C1, counterexample to the claim as stated: equality of input shapes
alone does not give bit-identical outputs.  Two calls sharing the same
cache instance (which already holds a flip-forcing draw), the same
operation list and parameters, on two 1x2x1 images of identical shape but
different pixel values, produce different output records. -/
theorem preprocess_same_shapes_counterexample :
    (preprocess
        ⟨some (.batched [[[[F.val 0], [F.val 1]]]]), some [], none, none,
         none, none, none, none⟩
        [.hflip none] ⟨true, false, false, false, false⟩
        (some (Cache.empty.update .horizontalFlip .empty
          (.f (.val (9/10))))) ⟨[]⟩).2.1
      = some (Cache.empty.update .horizontalFlip .empty (.f (.val (9/10))))
    ∧ (preprocess
        ⟨some (.batched [[[[F.val 5], [F.val 6]]]]), some [], none, none,
         none, none, none, none⟩
        [.hflip none] ⟨true, false, false, false, false⟩
        (some (Cache.empty.update .horizontalFlip .empty
          (.f (.val (9/10))))) ⟨[]⟩).2.1
      = some (Cache.empty.update .horizontalFlip .empty (.f (.val (9/10))))
    ∧ (preprocess
        ⟨some (.batched [[[[F.val 0], [F.val 1]]]]), some [], none, none,
         none, none, none, none⟩
        [.hflip none] ⟨true, false, false, false, false⟩
        (some (Cache.empty.update .horizontalFlip .empty
          (.f (.val (9/10))))) ⟨[]⟩).1
      ≠ (preprocess
        ⟨some (.batched [[[[F.val 5], [F.val 6]]]]), some [], none, none,
         none, none, none, none⟩
        [.hflip none] ⟨true, false, false, false, false⟩
        (some (Cache.empty.update .horizontalFlip .empty
          (.f (.val (9/10))))) ⟨[]⟩).1 := by
  have hget : (Cache.empty.update .horizontalFlip .empty
      (.f (.val (9/10)))).get .horizontalFlip .empty
      = some (.f (.val (9/10))) := rfl
  have hflip : ((RVal.f (F.val (9/10))).toF.gtQ half) = true := by
    norm_num [RVal.toF, F.gtQ, half]
  refine ⟨?_, ?_, ?_⟩
  · simp [preprocess, runOps, runOp, random_horizontal_flip,
      get_or_create_preprocess_rand_vars, hget, hflip, TImage.rank,
      writeFlip]
  · simp [preprocess, runOps, runOp, random_horizontal_flip,
      get_or_create_preprocess_rand_vars, hget, hflip, TImage.rank,
      writeFlip]
  · intro h
    simp only [preprocess, runOps, runOp, random_horizontal_flip,
      get_or_create_preprocess_rand_vars, hget, hflip, TImage.rank,
      flip_image_left_right, writeFlip] at h
    norm_num at h

/-- C8: index-alignment invariant of the strict random crop: one index
selection (the two-stage pruning) is applied to every supplied
per-instance array, so each output array has first dimension exactly M
(the number of survivors) and row i of every output corresponds to the
same surviving instance — original index sel i — as row i of the output
boxes. -/
theorem strict_random_crop_image_alignment (d : CropData) (moc : ℚ)
    (ar area : ℚ × ℚ) (ov : ℚ) (clip : Bool) (c : Option Cache) (g : RNG)
    (hlab : d.labels.length = d.boxes.length)
    (hlw : ∀ x, d.label_weights = some x → x.length = d.boxes.length)
    (hlc : ∀ x, d.label_confidences = some x → x.length = d.boxes.length)
    (hms : ∀ x, d.multiclass_scores = some x → x.length = d.boxes.length)
    (hmk : ∀ x, d.masks = some x → x.length = d.boxes.length)
    (hkp : ∀ x, d.keypoints = some x → x.length = d.boxes.length) :
    ∃ sel : List Nat,
      (∀ j ∈ sel, j < d.boxes.length)
      ∧ (strict_random_crop_image d moc ar area ov clip c g).1.boxes.length
          = sel.length
      ∧ (∃ tb : Box → Box,
          (strict_random_crop_image d moc ar area ov clip c g).1.boxes
            = (gather d.boxes sel).map tb)
      ∧ (strict_random_crop_image d moc ar area ov clip c g).1.labels
          = gather d.labels sel
      ∧ (∀ x, d.label_weights = some x →
          (strict_random_crop_image d moc ar area ov clip c g).1.label_weights
            = some (gather x sel) ∧ (gather x sel).length = sel.length)
      ∧ (∀ x, d.label_confidences = some x →
          (strict_random_crop_image d moc ar area ov clip c g).1.label_confidences
            = some (gather x sel) ∧ (gather x sel).length = sel.length)
      ∧ (∀ x, d.multiclass_scores = some x →
          (strict_random_crop_image d moc ar area ov clip c g).1.multiclass_scores
            = some (gather x sel) ∧ (gather x sel).length = sel.length)
      ∧ (∀ x, d.masks = some x → ∃ tm,
          (strict_random_crop_image d moc ar area ov clip c g).1.masks
            = some ((gather x sel).map tm)
            ∧ (gather x sel).length = sel.length)
      ∧ (∀ x, d.keypoints = some x → ∃ tk,
          (strict_random_crop_image d moc ar area ov clip c g).1.keypoints
            = some ((gather x sel).map tk)
            ∧ (gather x sel).length = sel.length) := by
  simp only [strict_random_crop_image, strict_crop_apply]
  exact strict_crop_fields_alignment d ov clip _ _ _ _ _ _ _ _
    hlab hlw hlc hms hmk hkp

theorem strict_random_crop_image_alignment_witness :
    ∃ sel : List Nat,
      (∀ j ∈ sel, j <
        ([⟨F.val 0, F.val 0, F.val 1, F.val 1⟩] : List Box).length)
      ∧ (strict_random_crop_image
          ⟨[[[F.val 1]]], [⟨F.val 0, F.val 0, F.val 1, F.val 1⟩], [7],
           none, none, none, none, none⟩
          1 (3/4, 4/3) (1/10, 1) (3/10) true none ⟨[]⟩).1.boxes.length
          = sel.length
      ∧ (∃ tb : Box → Box,
          (strict_random_crop_image
            ⟨[[[F.val 1]]], [⟨F.val 0, F.val 0, F.val 1, F.val 1⟩], [7],
             none, none, none, none, none⟩
            1 (3/4, 4/3) (1/10, 1) (3/10) true none ⟨[]⟩).1.boxes
            = (gather [⟨F.val 0, F.val 0, F.val 1, F.val 1⟩] sel).map tb)
      ∧ (strict_random_crop_image
          ⟨[[[F.val 1]]], [⟨F.val 0, F.val 0, F.val 1, F.val 1⟩], [7],
           none, none, none, none, none⟩
          1 (3/4, 4/3) (1/10, 1) (3/10) true none ⟨[]⟩).1.labels
          = gather [7] sel
      ∧ (∀ x, (none : Option (List F)) = some x →
          (strict_random_crop_image
            ⟨[[[F.val 1]]], [⟨F.val 0, F.val 0, F.val 1, F.val 1⟩], [7],
             none, none, none, none, none⟩
            1 (3/4, 4/3) (1/10, 1) (3/10) true none ⟨[]⟩).1.label_weights
            = some (gather x sel) ∧ (gather x sel).length = sel.length)
      ∧ (∀ x, (none : Option (List F)) = some x →
          (strict_random_crop_image
            ⟨[[[F.val 1]]], [⟨F.val 0, F.val 0, F.val 1, F.val 1⟩], [7],
             none, none, none, none, none⟩
            1 (3/4, 4/3) (1/10, 1) (3/10) true none
            ⟨[]⟩).1.label_confidences
            = some (gather x sel) ∧ (gather x sel).length = sel.length)
      ∧ (∀ x, (none : Option (List (List F))) = some x →
          (strict_random_crop_image
            ⟨[[[F.val 1]]], [⟨F.val 0, F.val 0, F.val 1, F.val 1⟩], [7],
             none, none, none, none, none⟩
            1 (3/4, 4/3) (1/10, 1) (3/10) true none
            ⟨[]⟩).1.multiclass_scores
            = some (gather x sel) ∧ (gather x sel).length = sel.length)
      ∧ (∀ x, (none : Option Masks) = some x → ∃ tm,
          (strict_random_crop_image
            ⟨[[[F.val 1]]], [⟨F.val 0, F.val 0, F.val 1, F.val 1⟩], [7],
             none, none, none, none, none⟩
            1 (3/4, 4/3) (1/10, 1) (3/10) true none ⟨[]⟩).1.masks
            = some ((gather x sel).map tm)
            ∧ (gather x sel).length = sel.length)
      ∧ (∀ x, (none : Option Keypoints) = some x → ∃ tk,
          (strict_random_crop_image
            ⟨[[[F.val 1]]], [⟨F.val 0, F.val 0, F.val 1, F.val 1⟩], [7],
             none, none, none, none, none⟩
            1 (3/4, 4/3) (1/10, 1) (3/10) true none ⟨[]⟩).1.keypoints
            = some ((gather x sel).map tk)
            ∧ (gather x sel).length = sel.length) :=
  strict_random_crop_image_alignment
    ⟨[[[F.val 1]]], [⟨F.val 0, F.val 0, F.val 1, F.val 1⟩], [7],
     none, none, none, none, none⟩
    1 (3/4, 4/3) (1/10, 1) (3/10) true none ⟨[]⟩
    rfl (fun x hx => nomatch hx) (fun x hx => nomatch hx)
    (fun x hx => nomatch hx) (fun x hx => nomatch hx)
    (fun x hx => nomatch hx)

theorem ssd_random_crop_selector_zero_witness :
    ssd_default_min_object_covered.length = 7
    ∧ (∀ n gg, 0 < n → (uniformIntGen n gg).1.toNat < n)
    ∧ (ssd_random_crop
        ⟨[[[F.val 1]]], [], [], none, none, none, none, none⟩
        (1 :: []) [] [] [] [] []
        (some (Cache.empty.update .selectorTuples .ssdCropSelectorId
          (.n 0))) ⟨[]⟩).1
      = (random_crop_image
          ⟨[[[F.val 1]]], [], [], none, none, none, none, none⟩
          1 (([] : List (ℚ × ℚ)).getD 0 (0, 0))
          (([] : List (ℚ × ℚ)).getD 0 (0, 0))
          (([] : List ℚ).getD 0 0) (([] : List Bool).getD 0 true)
          (([] : List ℚ).getD 0 0)
          (some (Cache.empty.update .selectorTuples .ssdCropSelectorId
            (.n 0))) ⟨[]⟩).1 :=
  ssd_random_crop_selector_zero
    ⟨[[[F.val 1]]], [], [], none, none, none, none, none⟩
    1 [] [] [] [] [] []
    (Cache.empty.update .selectorTuples .ssdCropSelectorId (.n 0))
    ⟨[]⟩ rfl

end Preproc
